import Mathlib

/-!
Verification development for the RISC-V 5-stage pipeline simulator
(`riscv_pipeline_sim`).  The definitions below are a shallow embedding of
`core/instructions.py` and `core/pipeline.py`: Python dataclasses become
structures, the sparse dictionaries become association lists, the register
file becomes a total function `Nat → Int`, and the per-cycle `step`
method becomes a pure state-transition function.  Python integers are
unbounded, so they are modelled by `Int` (register indices, which the
parser confines to 0..31, by `Nat`).
-/

namespace RV

set_option maxRecDepth 100000
set_option maxHeartbeats 1000000

/-- Quote character, used in parser error messages. -/
def sq : String := String.singleton (Char.ofNat 39)

/-!
Kernel-reducible string helpers.  The corresponding `String` library
functions (`trim`, `toLower`, `splitOn`, `split`, `replace`, `endsWith`,
`dropRight`) are defined by well-founded recursion on byte positions and do
not reduce definitionally, so the parser below uses these structural
equivalents over the underlying character lists; each models the Python
string method named in its comment.
-/

/-- Python `str.strip()` (ASCII whitespace). -/
def chTrim (l : List Char) : List Char :=
  ((l.dropWhile Char.isWhitespace).reverse.dropWhile Char.isWhitespace).reverse

def pyStrip (s : String) : String := String.mk (chTrim s.data)

/-- Python `str.lower()` (ASCII). -/
def pyLower (s : String) : String := String.mk (s.data.map Char.toLower)

/-- Python `str.splitlines()` for newline-separated text (split on `\n`). -/
def chSplitNl (cur : List Char) : List Char → List String
  | [] => [String.mk cur.reverse]
  | c :: cs =>
    if c = '\n' then String.mk cur.reverse :: chSplitNl [] cs
    else chSplitNl (c :: cur) cs

def pySplitLines (s : String) : List String := chSplitNl [] s.data

/-- Split on whitespace, keeping empty fields (Python `str.split()` is this
followed by dropping the empties). -/
def chSplitWs (cur : List Char) : List Char → List String
  | [] => [String.mk cur.reverse]
  | c :: cs =>
    if c.isWhitespace then String.mk cur.reverse :: chSplitWs [] cs
    else chSplitWs (c :: cur) cs

/-- Python `str.startswith`. -/
def pyStartsWith (s pre : String) : Bool := pre.data.isPrefixOf s.data

/-- Python `str.endswith`. -/
def pyEndsWith (s suf : String) : Bool :=
  suf.data.reverse.isPrefixOf s.data.reverse

/-- Python `s[:-n]`. -/
def pyDropRight (s : String) (n : Nat) : String :=
  String.mk (s.data.take (s.data.length - n))

/-- Decimal digits of a register index 0..31 (enough for two digits). -/
def natToChars (n : Nat) : List Char :=
  if n < 10 then [Char.ofNat (48 + n)]
  else [Char.ofNat (48 + n / 10), Char.ofNat (48 + n % 10)]

/-- The six opcodes of `instructions.py` (`nop`, `add`, `sub`, `lw`, `sw`, `beq`).
In Python the tag is the string field `op`; the set is closed, so an inductive
tag is used here, together with `Op.str` for the places the Python code treats
the tag as a string. -/
inductive Op
  | nop
  | add
  | sub
  | lw
  | sw
  | beq
deriving DecidableEq, Repr

/-- The opcode as the string the Python code stores in `Instruction.op`. -/
def Op.str : Op → String
  | .nop => "nop"
  | .add => "add"
  | .sub => "sub"
  | .lw => "lw"
  | .sw => "sw"
  | .beq => "beq"

/-- `instructions.Instruction` dataclass.  Optional operand slots default to
`None` (`none`); `raw` keeps the source text, `iid` the parse-time sequence id. -/
structure Instruction where
  op : Op
  rd : Option Nat := none
  rs1 : Option Nat := none
  rs2 : Option Nat := none
  imm : Option Int := none
  branch_target_idx : Option Int := none
  raw : String := ""
  iid : Int := -1
deriving DecidableEq, Repr

/-- `Instruction.is_nop` property. -/
def Instruction.is_nop (i : Instruction) : Bool := i.op == Op.nop

/-- `Instruction.writes_rd`: true for `add`, `sub`, `lw`. -/
def Instruction.writes_rd (i : Instruction) : Bool :=
  i.op == Op.add || i.op == Op.sub || i.op == Op.lw

/-- `Instruction.uses_reg(reg)`: Python membership `reg in opset` compares the
integer `reg` against `Optional[int]` slots, so `None` never matches. -/
def Instruction.uses_reg (i : Instruction) (reg : Nat) : Bool :=
  if i.is_nop || reg == 0 then false
  else
    let opset : List (Option Nat) :=
      match i.op with
      | .add | .sub | .beq => [i.rs1, i.rs2]
      | .lw => [i.rs1]
      | .sw => [i.rs1, i.rs2]
      | .nop => []
    opset.contains (some reg)

/-- The `NOP` sentinel singleton of `instructions.py`. -/
def NOP : Instruction := { op := Op.nop, raw := "nop", iid := -42 }

/-- Python `x or d` on an optional register index: `None` and `0` are falsy. -/
def pyOrNat (x : Option Nat) (d : Nat) : Nat :=
  match x with
  | some v => if v = 0 then d else v
  | none => d

/-- Python `x or d` on an optional integer: `None` and `0` are falsy. -/
def pyOrInt (x : Option Int) (d : Int) : Int :=
  match x with
  | some v => if v = 0 then d else v
  | none => d

/-- Python truthiness of an `Optional[int]`: `None` and `0` are falsy. -/
def optTruthy (x : Option Nat) : Bool :=
  match x with
  | some v => v != 0
  | none => false

/-- Association-list lookup with default: Python `d.get(k, default)`. -/
def dictGet {α β : Type} [DecidableEq α] (m : List (α × β)) (k : α) (d : β) : β :=
  match m with
  | [] => d
  | (a, b) :: t => if a = k then b else dictGet t k d

/-- Association-list lookup: Python `k in d` / `d[k]` combined. -/
def dictFind {α β : Type} [DecidableEq α] (m : List (α × β)) (k : α) : Option β :=
  match m with
  | [] => none
  | (a, b) :: t => if a = k then some b else dictFind t k

/-- Association-list update: Python `d[k] = v` (keys stay unique, insertion
order preserved, new keys appended). -/
def dictSet {α β : Type} [DecidableEq α] (m : List (α × β)) (k : α) (v : β) :
    List (α × β) :=
  match m with
  | [] => [(k, v)]
  | (a, b) :: t => if a = k then (k, v) :: t else (a, b) :: dictSet t k v

/-- `LatchIFID` dataclass. -/
structure LatchIFID where
  instr : Instruction := NOP
  pc : Int := 0
  predicted_taken : Bool := false
deriving DecidableEq, Repr

/-- `LatchIDEX` dataclass. -/
structure LatchIDEX where
  instr : Instruction := NOP
  pc : Int := 0
  rs1 : Nat := 0
  rs2 : Nat := 0
  rd : Nat := 0
  imm : Int := 0
  val1 : Int := 0
  val2 : Int := 0
  predicted_taken : Bool := false
deriving DecidableEq, Repr

/-- `LatchEXMEM` dataclass. -/
structure LatchEXMEM where
  instr : Instruction := NOP
  pc : Int := 0
  rd : Nat := 0
  alu : Int := 0
  store_val : Int := 0
  branch_taken : Bool := false
  branch_target : Int := 0
  predicted_taken : Bool := false
deriving DecidableEq, Repr

/-- `LatchMEMWB` dataclass. -/
structure LatchMEMWB where
  instr : Instruction := NOP
  pc : Int := 0
  rd : Nat := 0
  wb_val : Int := 0
  alu : Int := 0
  mem_read_val : Int := 0
deriving DecidableEq, Repr

/-- Entry of `inst_status`: `{"retired": ..., "retire_cycle": ..., "last_stage": ...}`.
The table is keyed by program index 0..len-1, so it is modelled as a list
indexed by pc. -/
structure InstStatus where
  retired : Bool := false
  retire_cycle : Option Nat := none
  last_stage : String := "-"
deriving DecidableEq, Repr

/-- One entry of `trace_stage_pc`: the start-of-cycle stage→pc occupancy map
(`None` for a stage holding a no-op). -/
structure StagePCs where
  stIF : Option Int := none
  stID : Option Int := none
  stEX : Option Int := none
  stMEM : Option Int := none
  stWB : Option Int := none
deriving DecidableEq, Repr

/-- One row of `trace`: the end-of-cycle stage→instruction-text snapshot
returned by `step`. -/
structure Snap where
  sIF : String := ""
  sID : String := ""
  sEX : String := ""
  sMEM : String := ""
  sWB : String := ""
deriving DecidableEq, Repr

/-- The hazard-detail record built by `_detect_stall_decode`. -/
structure HazardDetail where
  producer_pc : Option Int := none
  producer_op : String := ""
  producer_rd : Option Nat := none
  consumer_op : String := ""
  uses : List Nat := []
deriving DecidableEq, Repr

/-- Entry of `addr_log` (the teaching memory/ALU event log). -/
inductive AddrEvent
  | branch_cmp (cycle : Nat) (pc : Int) (a b : Int) (taken : Bool)
  | aluEv (cycle : Nat) (pc : Int) (op : Op) (a b alu : Int)
  | lwEv (cycle : Nat) (pc : Int) (addr val : Int)
  | swEv (cycle : Nat) (pc : Int) (addr val : Int)
deriving DecidableEq, Repr

/-- The `last_events` per-cycle record.  The Python dict starts each cycle from
literal defaults and is updated along the way; `hazard_detail` starts as the
empty dict `{}` (modelled `none`). -/
structure Events where
  stall : Bool := false
  stall_reason : String := ""
  hazard_detail : Option HazardDetail := none
  branch_taken : Bool := false
  mispredict : Bool := false
  structural_stall : Bool := false
  fwd_a : String := "none"
  fwd_b : String := "none"
deriving DecidableEq, Repr

/-- The `PipelineCPU` dataclass: full engine state.  The 32-entry register
array is modelled as a total function (the parser confines indices to 0..31);
all dictionaries are association lists. -/
structure PipelineCPU where
  program : List Instruction := []
  pc : Int := 0
  cycle : Nat := 0
  regs : Nat → Int := fun _ => 0
  dmem : List (Int × Int) := []
  forwarding : Bool := true
  structural_on : Bool := false
  predictor_mode : String := "none"
  predictor_table : List (Int × Bool) := []
  retired : Nat := 0
  stalls : Nat := 0
  flushes : Nat := 0
  mispredicts : Nat := 0
  trace : List Snap := []
  trace_stage_pc : List StagePCs := []
  inst_meta : List String := []
  inst_status : List InstStatus := []
  stall_breakdown : List (String × Nat) := []
  addr_log : List AddrEvent := []
  IF_ID : LatchIFID := {}
  ID_EX : LatchIDEX := {}
  EX_MEM : LatchEXMEM := {}
  MEM_WB : LatchMEMWB := {}
  last_events : Events := {}

/-- `ins_str`: display text of an instruction. -/
def ins_str (ins : Instruction) : String :=
  if ins.is_nop then "NOP" else ins.raw

/-- `PipelineCPU.reset`: clears execution state; `program`, `inst_meta` and the
configuration flags (`forwarding`, `structural_on`, `predictor_mode`) survive. -/
def reset (cpu : PipelineCPU) : PipelineCPU :=
  { cpu with
    pc := 0, cycle := 0, regs := fun _ => 0, dmem := [],
    IF_ID := {}, ID_EX := {}, EX_MEM := {}, MEM_WB := {},
    last_events := {}, retired := 0, stalls := 0, flushes := 0,
    mispredicts := 0, trace := [], predictor_table := [],
    trace_stage_pc := [], inst_status := [], stall_breakdown := [],
    addr_log := [] }

/-- `PipelineCPU.load_program`: reset, install the program, and build the
pc→raw map and the initial per-instruction status table. -/
def load_program (cpu : PipelineCPU) (prog : List Instruction) : PipelineCPU :=
  { reset cpu with
    program := prog,
    inst_meta := prog.map ins_str,
    inst_status := prog.map (fun _ => ({} : InstStatus)) }

/-- The GUI memory poke `self.cpu.dmem[addr] = val` (test/demo setup). -/
def pokeMem (cpu : PipelineCPU) (addr val : Int) : PipelineCPU :=
  { cpu with dmem := dictSet cpu.dmem addr val }

/-- `PipelineCPU._fetch`: the instruction at `pc`, or `NOP` out of range. -/
def fetch (cpu : PipelineCPU) (pc : Int) : Instruction :=
  if 0 ≤ pc ∧ pc < (cpu.program.length : Int) then cpu.program.getD pc.toNat NOP
  else NOP

/-- `PipelineCPU._alu_compute`. -/
def alu_compute (instr : Instruction) (a b : Int) : Int :=
  match instr.op with
  | .add => a + b
  | .sub => a - b
  | .lw | .sw => a + pyOrInt instr.imm 0
  | _ => 0

/-- `PipelineCPU._read_reg`: register 0 always reads as zero. -/
def read_reg (cpu : PipelineCPU) (idx : Nat) : Int :=
  if idx = 0 then 0 else cpu.regs idx

/-- `PipelineCPU._forward_get`: EX-operand bypass.  When the EX/MEM latch
matches but holds a `lw`, control falls through to the MEM/WB check, exactly
as in the Python nested `if`. -/
def forward_get (cpu : PipelineCPU) (src_reg : Nat) (default_val : Int) :
    Int × String :=
  if !cpu.forwarding || src_reg == 0 then (default_val, "none")
  else
    let exm := cpu.EX_MEM
    if !exm.instr.is_nop && exm.instr.writes_rd && exm.rd == src_reg
        && !(exm.instr.op == Op.lw) then
      (exm.alu, "EX/MEM")
    else
      let mw := cpu.MEM_WB
      if !mw.instr.is_nop && mw.instr.writes_rd && mw.rd == src_reg then
        (mw.wb_val, "MEM/WB")
      else (default_val, "none")

/-- `PipelineCPU._detect_stall_decode`: returns (stall?, reason, detail); the
early `return False, "", {}` for a no-op in decode is the `none` detail. -/
def detect_stall_decode (cpu : PipelineCPU) :
    Bool × String × Option HazardDetail :=
  let id_ins := cpu.IF_ID.instr
  if id_ins.is_nop then (false, "", none)
  else
    let ex_ins := cpu.ID_EX.instr
    let detail : HazardDetail :=
      { producer_pc := if ex_ins.is_nop then none else some cpu.ID_EX.pc,
        producer_op := if ex_ins.is_nop then "" else ex_ins.op.str,
        producer_rd := if ex_ins.is_nop then none else ex_ins.rd,
        consumer_op := id_ins.op.str,
        uses := [pyOrNat id_ins.rs1 0, pyOrNat id_ins.rs2 0] }
    if cpu.forwarding then
      if !ex_ins.is_nop && ex_ins.op == Op.lw && optTruthy ex_ins.rd
          && id_ins.uses_reg (ex_ins.rd.getD 0) then
        (true, "lw-use", some detail)
      else (false, "", some detail)
    else
      if !ex_ins.is_nop && ex_ins.writes_rd && optTruthy ex_ins.rd
          && id_ins.uses_reg (ex_ins.rd.getD 0) then
        (true, "RAW vs EX", some detail)
      else if !cpu.EX_MEM.instr.is_nop && cpu.EX_MEM.instr.writes_rd
          && cpu.EX_MEM.rd != 0 && id_ins.uses_reg cpu.EX_MEM.rd then
        (true, "RAW vs MEM", some detail)
      else if !cpu.MEM_WB.instr.is_nop && cpu.MEM_WB.instr.writes_rd
          && cpu.MEM_WB.rd != 0 && id_ins.uses_reg cpu.MEM_WB.rd then
        (true, "RAW vs WB", some detail)
      else (false, "", some detail)

/-- `PipelineCPU._predict_taken`. -/
def predict_taken (cpu : PipelineCPU) (instr : Instruction) (pc : Int) : Bool :=
  if instr.is_nop || !(instr.op == Op.beq) then false
  else if cpu.predictor_mode == "none" then false
  else if cpu.predictor_mode == "static_nt" then false
  else if cpu.predictor_mode == "onebit" then dictGet cpu.predictor_table pc false
  else false

/-- The structural-hazard fetch block of `step` (lines 390-394): enabled and
the current EX/MEM latch holds a `lw` or `sw`. -/
def structuralFire (cpu : PipelineCPU) : Bool :=
  cpu.structural_on && !cpu.EX_MEM.instr.is_nop
    && (cpu.EX_MEM.instr.op == Op.lw || cpu.EX_MEM.instr.op == Op.sw)

/-- Update `last_stage` of the status entry at `pcv` (Python
`if pcv in self.inst_status: self.inst_status[pcv]["last_stage"] = st`). -/
def setLastStage (st : List InstStatus) (pcv : Option Int) (name : String) :
    List InstStatus :=
  match pcv with
  | none => st
  | some p =>
    if 0 ≤ p ∧ p < (st.length : Int) then
      st.set p.toNat { st.getD p.toNat {} with last_stage := name }
    else st

/-!
`PipelineCPU.step` is decomposed into one definition per logical sub-step;
each mirrors the corresponding block of the Python method, and `step` glues
them together in source order.  Where Python mutates several fields under one
`if`, the guarding condition is repeated verbatim in each field's definition.
-/

/-- `step` lines 288-295: stage occupancy snapshot at START of cycle (for
Gantt); the MEM row reports the EX/MEM latch, as in the source. -/
def stagePCsStart (cpu : PipelineCPU) : StagePCs :=
  { stIF := if cpu.IF_ID.instr.is_nop then none else some cpu.IF_ID.pc,
    stID := if cpu.ID_EX.instr.is_nop then none else some cpu.ID_EX.pc,
    stEX := if cpu.EX_MEM.instr.is_nop then none else some cpu.EX_MEM.pc,
    stMEM := if cpu.EX_MEM.instr.is_nop then none else some cpu.EX_MEM.pc,
    stWB := if cpu.MEM_WB.instr.is_nop then none else some cpu.MEM_WB.pc }

/-- WB commit (`step` lines 304-305): the retired-instruction counter. -/
def wbRetired (cpu : PipelineCPU) : Nat :=
  if !cpu.MEM_WB.instr.is_nop then cpu.retired + 1 else cpu.retired

/-- WB commit (`step` lines 306-310): retirement marking; Python's
`wb_pc in self.inst_status` is the index range check. -/
def wbStatus (cpu : PipelineCPU) : List InstStatus :=
  if !cpu.MEM_WB.instr.is_nop
      ∧ 0 ≤ cpu.MEM_WB.pc ∧ cpu.MEM_WB.pc < (cpu.inst_status.length : Int) then
    cpu.inst_status.set cpu.MEM_WB.pc.toNat
      { retired := true, retire_cycle := some cpu.cycle, last_stage := "WB" }
  else cpu.inst_status

/-- WB commit (`step` lines 311-314): the register-file write.
`rd = self.MEM_WB.rd or 0` is the identity on the latch's int field. -/
def wbRegs (cpu : PipelineCPU) : Nat → Int :=
  if !cpu.MEM_WB.instr.is_nop && cpu.MEM_WB.instr.writes_rd
      && cpu.MEM_WB.rd != 0 then
    fun i => if i = cpu.MEM_WB.rd then cpu.MEM_WB.wb_val else cpu.regs i
  else cpu.regs

/-- EX stage (`step` lines 324-347): the next EX/MEM latch. -/
def nextEXMEM (cpu : PipelineCPU) : LatchEXMEM :=
  let ex_instr := cpu.ID_EX.instr
  let a_val := (forward_get cpu cpu.ID_EX.rs1 cpu.ID_EX.val1).1
  let b_val := (forward_get cpu cpu.ID_EX.rs2 cpu.ID_EX.val2).1
  let base : LatchEXMEM :=
    { instr := ex_instr, pc := cpu.ID_EX.pc, rd := cpu.ID_EX.rd,
      predicted_taken := cpu.ID_EX.predicted_taken }
  if !ex_instr.is_nop then
    if ex_instr.op == Op.beq then
      { base with
        branch_taken := a_val == b_val,
        branch_target := pyOrInt ex_instr.branch_target_idx 0 }
    else
      let alu := alu_compute ex_instr a_val b_val
      if ex_instr.op == Op.sw then
        { base with
          alu := alu,
          store_val := (forward_get cpu cpu.ID_EX.rs2 cpu.ID_EX.val2).1 }
      else { base with alu := alu }
  else base

/-- EX stage: the `addr_log` events of lines 339-344. -/
def exAddrLog (cpu : PipelineCPU) : List AddrEvent :=
  let ex_instr := cpu.ID_EX.instr
  let a_val := (forward_get cpu cpu.ID_EX.rs1 cpu.ID_EX.val1).1
  let b_val := (forward_get cpu cpu.ID_EX.rs2 cpu.ID_EX.val2).1
  if !ex_instr.is_nop then
    if ex_instr.op == Op.beq then
      [AddrEvent.branch_cmp cpu.cycle cpu.ID_EX.pc a_val b_val (a_val == b_val)]
    else
      [AddrEvent.aluEv cpu.cycle cpu.ID_EX.pc ex_instr.op a_val b_val
        (alu_compute ex_instr a_val b_val)]
  else []

/-- MEM stage (`step` lines 350-365): the next MEM/WB latch, built from the
CURRENT EX/MEM latch. -/
def nextMEMWB (cpu : PipelineCPU) : LatchMEMWB :=
  let cur := cpu.EX_MEM
  let base : LatchMEMWB :=
    { instr := cur.instr, pc := cur.pc, rd := cur.rd, alu := cur.alu }
  if !cur.instr.is_nop then
    if cur.instr.op == Op.lw then
      let val := dictGet cpu.dmem cur.alu 0
      { base with mem_read_val := val, wb_val := val }
    else if cur.instr.op == Op.sw then base
    else if cur.instr.op == Op.add || cur.instr.op == Op.sub then
      { base with wb_val := cur.alu }
    else base
  else base

/-- MEM stage: the data-memory store of lines 360-362. -/
def memDmem (cpu : PipelineCPU) : List (Int × Int) :=
  let cur := cpu.EX_MEM
  if !cur.instr.is_nop && cur.instr.op == Op.sw then
    dictSet cpu.dmem cur.alu cur.store_val
  else cpu.dmem

/-- MEM stage: the `addr_log` events of lines 359 and 363. -/
def memAddrLog (cpu : PipelineCPU) : List AddrEvent :=
  let cur := cpu.EX_MEM
  if !cur.instr.is_nop then
    if cur.instr.op == Op.lw then
      [AddrEvent.lwEv cpu.cycle cur.pc cur.alu (dictGet cpu.dmem cur.alu 0)]
    else if cur.instr.op == Op.sw then
      [AddrEvent.swEv cpu.cycle cur.pc cur.alu cur.store_val]
    else []
  else []

/-- ID advance (`step` lines 367-386): the next ID/EX latch — a bubble on a
decode stall, otherwise the decoded IF/ID instruction.  Decode reads the
register file AFTER the same-cycle WB commit (`self.regs` was mutated in
place), hence `wbRegs`; `_read_reg`'s zero short-circuit is inlined. -/
def nextIDEX (cpu : PipelineCPU) : LatchIDEX :=
  if (detect_stall_decode cpu).1 then { instr := NOP }
  else
    let id_instr := cpu.IF_ID.instr
    if id_instr.is_nop then { instr := NOP }
    else
      let rs1 := pyOrNat id_instr.rs1 0
      let rs2 := pyOrNat id_instr.rs2 0
      { instr := id_instr, pc := cpu.IF_ID.pc,
        rs1 := rs1, rs2 := rs2, rd := pyOrNat id_instr.rd 0,
        imm := pyOrInt id_instr.imm 0,
        val1 := if rs1 = 0 then 0 else wbRegs cpu rs1,
        val2 := if rs2 = 0 then 0 else wbRegs cpu rs2,
        predicted_taken :=
          if id_instr.op == Op.beq then cpu.IF_ID.predicted_taken else false }

/-- `step` line 389-391: fetch is suppressed by a decode stall or a
structural stall. -/
def fetchStall (cpu : PipelineCPU) : Bool :=
  (detect_stall_decode cpu).1 || structuralFire cpu

/-- IF (`step` lines 396-406): the tentative next IF/ID latch, before any
branch-resolution override. -/
def nextIFID0 (cpu : PipelineCPU) : LatchIFID :=
  if !fetchStall cpu then
    let fetched := fetch cpu cpu.pc
    { instr := fetched, pc := cpu.pc,
      predicted_taken := predict_taken cpu fetched cpu.pc }
  else
    { instr := cpu.IF_ID.instr, pc := cpu.pc,
      predicted_taken := cpu.IF_ID.predicted_taken }

/-- IF (`step` lines 396-406): the tentative next program counter. -/
def pcNext0 (cpu : PipelineCPU) : Int :=
  if !fetchStall cpu then
    let fetched := fetch cpu cpu.pc
    if predict_taken cpu fetched cpu.pc && fetched.op == Op.beq then
      pyOrInt fetched.branch_target_idx (cpu.pc + 1)
    else cpu.pc + 1
  else cpu.pc

/-- Branch resolution (`step` line 409): the next EX/MEM latch holds a
resolved `beq`. -/
def resolvesBeq (cpu : PipelineCPU) : Bool :=
  (nextEXMEM cpu).instr.op == Op.beq && !(nextEXMEM cpu).instr.is_nop

/-- Branch resolution (`step` lines 410-416): actual outcome differs from the
carried prediction — mispredict, flush, redirect. -/
def mispredictFire (cpu : PipelineCPU) : Bool :=
  resolvesBeq cpu && (nextEXMEM cpu).branch_taken != (nextEXMEM cpu).predicted_taken

/-- The committed next program counter (`step` lines 399-406 and 420): the
branch-resolution redirect overrides the tentative fetch decision. -/
def pcNext1 (cpu : PipelineCPU) : Int :=
  if mispredictFire cpu then
    if (nextEXMEM cpu).branch_taken then (nextEXMEM cpu).branch_target
    else cpu.ID_EX.pc + 1
  else pcNext0 cpu

/-- The committed next IF/ID latch (`step` lines 402, 405 and 421): a flush
no-op on a mispredict, the tentative fetch otherwise. -/
def nextIFID1 (cpu : PipelineCPU) : LatchIFID :=
  if mispredictFire cpu then { instr := NOP, pc := cpu.pc, predicted_taken := false }
  else nextIFID0 cpu

/-- The stage→text snapshot appended to `trace` (`step` lines 440-447), read
from the just-committed latches; MEM and WB both report the MEM/WB latch. -/
def stepSnapRow (cpu : PipelineCPU) : Snap :=
  { sIF := ins_str (nextIFID1 cpu).instr, sID := ins_str (nextIDEX cpu).instr,
    sEX := ins_str (nextEXMEM cpu).instr, sMEM := ins_str (nextMEMWB cpu).instr,
    sWB := ins_str (nextMEMWB cpu).instr }

/-- `PipelineCPU.step`: one full cycle, assembled from the stage functions
above in the source's order.  The snapshot dict returned by the Python method
is the row appended to `trace`. -/
def step (cpu : PipelineCPU) : PipelineCPU :=
  let pcs_start := stagePCsStart cpu
  -- hazards for ID (lines 317-321)
  let sdd := detect_stall_decode cpu
  let stall_decode := sdd.1
  let reason := sdd.2.1
  let stalls1 := if stall_decode then cpu.stalls + 1 else cpu.stalls
  let breakdown1 :=
    if stall_decode then
      dictSet cpu.stall_breakdown reason (dictGet cpu.stall_breakdown reason 0 + 1)
    else cpu.stall_breakdown
  let events1 : Events :=
    if stall_decode then
      { stall := true, stall_reason := reason, hazard_detail := sdd.2.2 }
    else {}
  -- EX forwarding sources for `last_events` (lines 325-328)
  let events2 := { events1 with
    fwd_a := (forward_get cpu cpu.ID_EX.rs1 cpu.ID_EX.val1).2,
    fwd_b := (forward_get cpu cpu.ID_EX.rs2 cpu.ID_EX.val2).2 }
  -- IF: structural hazard bookkeeping (lines 389-394)
  let events3 :=
    if structuralFire cpu then { events2 with structural_stall := true } else events2
  let stalls2 := if structuralFire cpu then stalls1 + 1 else stalls1
  let breakdown2 :=
    if structuralFire cpu then
      dictSet breakdown1 "structural" (dictGet breakdown1 "structural" 0 + 1)
    else breakdown1
  -- branch resolution / misprediction in EX (lines 408-421)
  let events4 :=
    if resolvesBeq cpu && (nextEXMEM cpu).branch_taken then
      { events3 with branch_taken := true }
    else events3
  let predictor_table1 :=
    if resolvesBeq cpu && cpu.predictor_mode == "onebit" then
      dictSet cpu.predictor_table cpu.ID_EX.pc (nextEXMEM cpu).branch_taken
    else cpu.predictor_table
  let mispred := mispredictFire cpu
  let mispredicts1 := if mispred then cpu.mispredicts + 1 else cpu.mispredicts
  let flushes1 := if mispred then cpu.flushes + 1 else cpu.flushes
  let events5 := if mispred then { events4 with mispredict := true } else events4
  -- latch update, x0 reset, last-stage annotations, trace snapshot (429-448)
  let regs2 : Nat → Int := fun i => if i = 0 then 0 else wbRegs cpu i
  let inst_status2 :=
    setLastStage (setLastStage (setLastStage (setLastStage
      (setLastStage (wbStatus cpu) pcs_start.stIF "IF")
      pcs_start.stID "ID") pcs_start.stEX "EX")
      pcs_start.stMEM "MEM") pcs_start.stWB "WB"
  { cpu with
    MEM_WB := nextMEMWB cpu, EX_MEM := nextEXMEM cpu,
    ID_EX := nextIDEX cpu, IF_ID := nextIFID1 cpu,
    pc := pcNext1 cpu, cycle := cpu.cycle + 1,
    regs := regs2, dmem := memDmem cpu,
    retired := wbRetired cpu, stalls := stalls2,
    flushes := flushes1, mispredicts := mispredicts1,
    trace := cpu.trace ++ [stepSnapRow cpu],
    trace_stage_pc := cpu.trace_stage_pc ++ [pcs_start],
    inst_status := inst_status2,
    stall_breakdown := breakdown2,
    addr_log := (cpu.addr_log ++ exAddrLog cpu) ++ memAddrLog cpu,
    predictor_table := predictor_table1,
    last_events := events5 }

/-- `k` consecutive calls of `step` from `cpu` (the bounded "run N cycles"
driver). -/
def stepN (cpu : PipelineCPU) : Nat → PipelineCPU
  | 0 => cpu
  | n + 1 => stepN (step cpu) n

/-- The rows written by `export_csv` (file mechanics excluded): cycle number
followed by the five stage texts of each trace row. -/
def export_csv_rows (cpu : PipelineCPU) : List (List String) :=
  cpu.trace.enum.map fun p =>
    [toString (p.1 + 1), p.2.sIF, p.2.sID, p.2.sEX, p.2.sMEM, p.2.sWB]

/-- `REG_NAMES`: `x0`..`x31` → 0..31. -/
def REG_NAMES : List (String × Nat) :=
  (List.range 32).map fun i => (String.mk ('x' :: natToChars i), i)

/-- `parse_reg`: strip/lower the token, then look it up; the error message
carries the (processed) token only. -/
def parse_reg (tok : String) : Except String Nat :=
  let t := pyLower (pyStrip tok)
  match dictFind REG_NAMES t with
  | some r => .ok r
  | none => .error ("Unknown register " ++ sq ++ t ++ sq)

/-- Decimal digits to a number (`none` when empty or a non-digit appears).
Python's underscore digit separators are not modelled. -/
def decDigit (c : Char) : Option Nat :=
  if c.isDigit then some (c.toNat - 48) else none

def decDigitsAux (acc : Nat) : List Char → Option Nat
  | [] => some acc
  | c :: cs => do
    let d ← decDigit c
    decDigitsAux (acc * 10 + d) cs

def decDigits : List Char → Option Nat
  | [] => none
  | cs => decDigitsAux 0 cs

/-- Hex digits to a number (`none` when empty or a non-hex-digit appears). -/
def hexDigit (c : Char) : Option Nat :=
  if c.isDigit then some (c.toNat - 48)
  else if 97 ≤ c.toLower.toNat ∧ c.toLower.toNat ≤ 102 then
    some (c.toLower.toNat - 87)
  else none

def hexDigitsAux (acc : Nat) : List Char → Option Nat
  | [] => some acc
  | c :: cs => do
    let d ← hexDigit c
    hexDigitsAux (acc * 16 + d) cs

def hexDigits : List Char → Option Nat
  | [] => none
  | cs => hexDigitsAux 0 cs

/-- `int(s)` on a stripped string: optional sign, then decimal digits. -/
def pyIntDec (s : String) : Option Int :=
  match s.data with
  | '-' :: cs => (decDigits cs).map fun n => -(n : Int)
  | '+' :: cs => (decDigits cs).map fun n => (n : Int)
  | cs => (decDigits cs).map fun n => (n : Int)

/-- `parse_int`: strip, then base-16 when the string starts with `0x`/`0X`
(prefix accepted by `int(s, 16)`), else base 10.  Failures mirror the
`ValueError` of `int()`, carrying the offending literal. -/
def parse_int (s : String) : Except String Int :=
  let s := pyStrip s
  if pyStartsWith s "0x" || pyStartsWith s "0X" then
    match hexDigits (s.toList.drop 2) with
    | some n => .ok (n : Int)
    | none => .error ("invalid literal for int() with base 16: " ++ sq ++ s ++ sq)
  else
    match pyIntDec s with
    | some n => .ok n
    | none => .error ("invalid literal for int() with base 10: " ++ sq ++ s ++ sq)

/-- `_clean_line`: strip a `#` or `;` comment, then strip whitespace. -/
def clean_line (line : String) : String :=
  let l1 := String.mk (line.data.takeWhile (· ≠ '#'))
  let l2 := String.mk (l1.data.takeWhile (· ≠ ';'))
  pyStrip l2

/-- The comment-stripped, non-empty lines of the program text. -/
def cleanedLines (asm_text : String) : List String :=
  ((pySplitLines asm_text).map clean_line).filter (· ≠ "")

/-- Pass 1 of `parse_program`: walk the cleaned lines, collecting labels
(name → current instruction count, later declarations overwrite) and the
operation lines, failing on an empty label name. -/
def collectLabels (lines : List String) (labels : List (String × Nat))
    (ops : List String) (pc : Nat) :
    Except String (List (String × Nat) × List String) :=
  match lines with
  | [] => .ok (labels, ops.reverse)
  | line :: rest =>
    if pyEndsWith line ":" then
      let lbl := pyStrip (pyDropRight line 1)
      if lbl = "" then .error "Empty label name"
      else collectLabels rest (dictSet labels lbl pc) ops pc
    else collectLabels rest labels (line :: ops) (pc + 1)

/-- Pass 1 applied to a program text. -/
def parse_labels (asm_text : String) :
    Except String (List (String × Nat) × List String) :=
  collectLabels (cleanedLines asm_text) [] [] 0

/-- `line.replace(",", " ").split()`. -/
def tokenize (line : String) : List String :=
  (chSplitWs [] (line.data.map fun c => if c = ',' then ' ' else c)).filter (· ≠ "")

/-- The `offset(rs1)` split of a load/store address token:
`addr.split("(", 1)` = (text before the first `(`, text after it). -/
def addrSplit (addr : String) : String × String :=
  let off := String.mk (addr.data.takeWhile (· ≠ '('))
  (off, String.mk (addr.data.drop (off.length + 1)))

/-- Pass 2 of `parse_program`, one operation line: build the `Instruction`
with sequence id `iid`.  An empty token list mirrors Python's uncaught
`IndexError` on `toks[0]`. -/
def parse_line (labels : List (String × Nat)) (iid : Nat) (line : String) :
    Except String Instruction :=
  let raw := line
  let toks := tokenize line
  match toks with
  | [] => .error "list index out of range"
  | t0 :: _ =>
    let op := pyLower t0
    if op = "nop" then .ok { op := Op.nop, raw := raw, iid := iid }
    else if op = "add" ∨ op = "sub" then
      if toks.length ≠ 4 then .error ("Bad " ++ op ++ " format: " ++ raw)
      else do
        let rd ← parse_reg (toks.getD 1 "")
        let rs1 ← parse_reg (toks.getD 2 "")
        let rs2 ← parse_reg (toks.getD 3 "")
        .ok { op := if op = "add" then Op.add else Op.sub,
              rd := some rd, rs1 := some rs1, rs2 := some rs2,
              raw := raw, iid := iid }
    else if op = "lw" then
      if toks.length ≠ 3 then .error ("Bad lw format: " ++ raw)
      else do
        let rd ← parse_reg (toks.getD 1 "")
        let addr := toks.getD 2 ""
        if !addr.data.contains '(' || !pyEndsWith addr ")" then
          .error ("Bad lw address: " ++ raw)
        else
          let off_str := (addrSplit addr).1
          let rs1 ← parse_reg (pyDropRight (addrSplit addr).2 1)
          let imm ← parse_int (if off_str = "" then "0" else off_str)
          .ok { op := Op.lw, rd := some rd, rs1 := some rs1, imm := some imm,
                raw := raw, iid := iid }
    else if op = "sw" then
      if toks.length ≠ 3 then .error ("Bad sw format: " ++ raw)
      else do
        let rs2 ← parse_reg (toks.getD 1 "")
        let addr := toks.getD 2 ""
        if !addr.data.contains '(' || !pyEndsWith addr ")" then
          .error ("Bad sw address: " ++ raw)
        else
          let off_str := (addrSplit addr).1
          let rs1 ← parse_reg (pyDropRight (addrSplit addr).2 1)
          let imm ← parse_int (if off_str = "" then "0" else off_str)
          .ok { op := Op.sw, rs1 := some rs1, rs2 := some rs2, imm := some imm,
                raw := raw, iid := iid }
    else if op = "beq" then
      if toks.length ≠ 4 then .error ("Bad beq format: " ++ raw)
      else do
        let rs1 ← parse_reg (toks.getD 1 "")
        let rs2 ← parse_reg (toks.getD 2 "")
        let label := toks.getD 3 ""
        match dictFind labels label with
        | some t =>
          .ok { op := Op.beq, rs1 := some rs1, rs2 := some rs2,
                branch_target_idx := some (t : Int), raw := raw, iid := iid }
        | none =>
          -- numeric absolute instruction index as fallback
          match parse_int label with
          | .ok t =>
            .ok { op := Op.beq, rs1 := some rs1, rs2 := some rs2,
                  branch_target_idx := some t, raw := raw, iid := iid }
          | .error _ =>
            .error ("Unknown label " ++ sq ++ label ++ sq ++ " in: " ++ raw)
    else .error ("Unsupported op " ++ sq ++ op ++ sq ++ " in: " ++ raw)

/-- Pass 2 over all operation lines, threading the `iid` counter. -/
def buildProgram (labels : List (String × Nat)) (iid : Nat)
    (ops : List String) : Except String (List Instruction) :=
  match ops with
  | [] => .ok []
  | line :: rest => do
    let ins ← parse_line labels iid line
    let tail ← buildProgram labels (iid + 1) rest
    .ok (ins :: tail)

/-- `parse_program`: the two-pass parser with labels. -/
def parse_program (asm_text : String) : Except String (List Instruction) := do
  let p1 ← parse_labels asm_text
  buildProgram p1.1 0 p1.2

/-- The GUI load handler (`on_load_text`): a parse error is caught and the
engine is left untouched; on success the parsed program is installed. -/
def load_program_text (cpu : PipelineCPU) (text : String) : PipelineCPU :=
  match parse_program text with
  | .ok prog => load_program cpu prog
  | .error _ => cpu

/-!  Concrete scenarios of the testable properties. -/

/-- Misprediction-flush scenario: `static_nt` mode, a `beq` that is actually
taken, and on the sequential not-taken path a `lw` that would load 7 into x1. -/
def textMis : String := "beq x0, x0, 2\nlw x1, 0(x0)\nnop"

def progMis : List Instruction := (parse_program textMis).toOption.getD []

/-- Cold start, predictor `static_nt`, program loaded, `mem[0] = 7` poked. -/
def cpuMis : PipelineCPU :=
  pokeMem (load_program { predictor_mode := "static_nt" } progMis) 0 7

/-- No-forwarding RAW scenario. -/
def textRaw : String := "add x1, x0, x0\nadd x2, x1, x1\nadd x3, x2, x2"

def progRaw : List Instruction := (parse_program textRaw).toOption.getD []

def cpuRaw : PipelineCPU := load_program { forwarding := false } progRaw

/-- Load-use scenario. -/
def textLwUse : String := "lw x1, 0(x0)\nadd x2, x1, x1"

def progLwUse : List Instruction := (parse_program textLwUse).toOption.getD []

/-- Cold start (forwarding defaults to on), program loaded, `mem[0] = v`. -/
def cpuLwUse (v : Int) : PipelineCPU := pokeMem (load_program {} progLwUse) 0 v

/-- The load-use scenario two cycles in: the `add` sits in IF/ID, the `lw` in
ID/EX, and the coming cycle detects the `lw-use` stall. -/
def cpuStallCycle : PipelineCPU := stepN (cpuLwUse 7) 2

/-- A state for the structural-hazard property: hazard modeling enabled and a
`lw` occupying the EX/MEM latch. -/
def cpuStruct : PipelineCPU :=
  { structural_on := true,
    EX_MEM := { instr := { op := Op.lw, rd := some 1, rs1 := some 0,
                           imm := some 0, raw := "lw x1, 0(x0)", iid := 0 },
                pc := 0, rd := 1 } }

/-- A fully drained engine: every latch holds a no-op, the program counter has
run off the end of the program, and register 0 is zero.  Such a state is the
side-effect-free steady state the error-handling design describes. -/
def Drained (cpu : PipelineCPU) : Prop :=
  cpu.IF_ID.instr.op = Op.nop ∧ cpu.ID_EX.instr.op = Op.nop ∧
  cpu.EX_MEM.instr.op = Op.nop ∧ cpu.MEM_WB.instr.op = Op.nop ∧
  (cpu.program.length : Int) ≤ cpu.pc ∧ cpu.regs 0 = 0

instance (cpu : PipelineCPU) : Decidable (Drained cpu) := by
  unfold Drained; infer_instance

/-!
The load-use scenario, cycle by cycle: `sLwK v` is the engine after `K`
cycles of `cpuLwUse v`, written out as explicit state literals so that each
per-cycle `step` equation is a single cheap definitional check (the register
file is threaded through `wbRegs` of the previous state, exactly as `step`
builds it).  Values derived from the poked memory word appear as `v`/`v + v`.
-/

def sLw1 (v : Int) : PipelineCPU :=
  { program := progLwUse,
    pc := 1,
    cycle := 1,
    regs := fun i => if i = 0 then 0 else wbRegs (cpuLwUse v) i,
    dmem := [(0, v)],
    forwarding := true,
    structural_on := false,
    predictor_mode := "none",
    predictor_table := [],
    retired := 0,
    stalls := 0,
    flushes := 0,
    mispredicts := 0,
    trace := [{ sIF := "lw x1, 0(x0)", sID := "NOP", sEX := "NOP", sMEM := "NOP", sWB := "NOP" }],
    trace_stage_pc := [{ stIF := none, stID := none, stEX := none, stMEM := none, stWB := none }],
    inst_meta := ["lw x1, 0(x0)", "add x2, x1, x1"],
    inst_status := [{ retired := false, retire_cycle := none, last_stage := "-" }, { retired := false, retire_cycle := none, last_stage := "-" }],
    stall_breakdown := [],
    addr_log := [],
    IF_ID := { instr := { op := RV.Op.lw, rd := some 1, rs1 := some 0, rs2 := none, imm := some 0, branch_target_idx := none, raw := "lw x1, 0(x0)", iid := 0 }, pc := 0, predicted_taken := false },
    ID_EX := { instr := { op := RV.Op.nop, rd := none, rs1 := none, rs2 := none, imm := none, branch_target_idx := none, raw := "nop", iid := -42 }, pc := 0, rs1 := 0, rs2 := 0, rd := 0, imm := 0, val1 := 0, val2 := 0, predicted_taken := false },
    EX_MEM := { instr := { op := RV.Op.nop, rd := none, rs1 := none, rs2 := none, imm := none, branch_target_idx := none, raw := "nop", iid := -42 }, pc := 0, rd := 0, alu := 0, store_val := 0, branch_taken := false, branch_target := 0, predicted_taken := false },
    MEM_WB := { instr := { op := RV.Op.nop, rd := none, rs1 := none, rs2 := none, imm := none, branch_target_idx := none, raw := "nop", iid := -42 }, pc := 0, rd := 0, wb_val := 0, alu := 0, mem_read_val := 0 },
    last_events := { stall := false, stall_reason := "", hazard_detail := none, branch_taken := false, mispredict := false, structural_stall := false, fwd_a := "none", fwd_b := "none" } }

def sLw2 (v : Int) : PipelineCPU :=
  { program := progLwUse,
    pc := 2,
    cycle := 2,
    regs := fun i => if i = 0 then 0 else wbRegs (sLw1 v) i,
    dmem := [(0, v)],
    forwarding := true,
    structural_on := false,
    predictor_mode := "none",
    predictor_table := [],
    retired := 0,
    stalls := 0,
    flushes := 0,
    mispredicts := 0,
    trace := [{ sIF := "lw x1, 0(x0)", sID := "NOP", sEX := "NOP", sMEM := "NOP", sWB := "NOP" }, { sIF := "add x2, x1, x1", sID := "lw x1, 0(x0)", sEX := "NOP", sMEM := "NOP", sWB := "NOP" }],
    trace_stage_pc := [{ stIF := none, stID := none, stEX := none, stMEM := none, stWB := none }, { stIF := some 0, stID := none, stEX := none, stMEM := none, stWB := none }],
    inst_meta := ["lw x1, 0(x0)", "add x2, x1, x1"],
    inst_status := [{ retired := false, retire_cycle := none, last_stage := "IF" }, { retired := false, retire_cycle := none, last_stage := "-" }],
    stall_breakdown := [],
    addr_log := [],
    IF_ID := { instr := { op := RV.Op.add, rd := some 2, rs1 := some 1, rs2 := some 1, imm := none, branch_target_idx := none, raw := "add x2, x1, x1", iid := 1 }, pc := 1, predicted_taken := false },
    ID_EX := { instr := { op := RV.Op.lw, rd := some 1, rs1 := some 0, rs2 := none, imm := some 0, branch_target_idx := none, raw := "lw x1, 0(x0)", iid := 0 }, pc := 0, rs1 := 0, rs2 := 0, rd := 1, imm := 0, val1 := 0, val2 := 0, predicted_taken := false },
    EX_MEM := { instr := { op := RV.Op.nop, rd := none, rs1 := none, rs2 := none, imm := none, branch_target_idx := none, raw := "nop", iid := -42 }, pc := 0, rd := 0, alu := 0, store_val := 0, branch_taken := false, branch_target := 0, predicted_taken := false },
    MEM_WB := { instr := { op := RV.Op.nop, rd := none, rs1 := none, rs2 := none, imm := none, branch_target_idx := none, raw := "nop", iid := -42 }, pc := 0, rd := 0, wb_val := 0, alu := 0, mem_read_val := 0 },
    last_events := { stall := false, stall_reason := "", hazard_detail := none, branch_taken := false, mispredict := false, structural_stall := false, fwd_a := "none", fwd_b := "none" } }

def sLw3 (v : Int) : PipelineCPU :=
  { program := progLwUse,
    pc := 2,
    cycle := 3,
    regs := fun i => if i = 0 then 0 else wbRegs (sLw2 v) i,
    dmem := [(0, v)],
    forwarding := true,
    structural_on := false,
    predictor_mode := "none",
    predictor_table := [],
    retired := 0,
    stalls := 1,
    flushes := 0,
    mispredicts := 0,
    trace := [{ sIF := "lw x1, 0(x0)", sID := "NOP", sEX := "NOP", sMEM := "NOP", sWB := "NOP" }, { sIF := "add x2, x1, x1", sID := "lw x1, 0(x0)", sEX := "NOP", sMEM := "NOP", sWB := "NOP" }, { sIF := "add x2, x1, x1", sID := "NOP", sEX := "lw x1, 0(x0)", sMEM := "NOP", sWB := "NOP" }],
    trace_stage_pc := [{ stIF := none, stID := none, stEX := none, stMEM := none, stWB := none }, { stIF := some 0, stID := none, stEX := none, stMEM := none, stWB := none }, { stIF := some 1, stID := some 0, stEX := none, stMEM := none, stWB := none }],
    inst_meta := ["lw x1, 0(x0)", "add x2, x1, x1"],
    inst_status := [{ retired := false, retire_cycle := none, last_stage := "ID" }, { retired := false, retire_cycle := none, last_stage := "IF" }],
    stall_breakdown := [("lw-use", 1)],
    addr_log := [RV.AddrEvent.aluEv 2 0 (RV.Op.lw) 0 0 0],
    IF_ID := { instr := { op := RV.Op.add, rd := some 2, rs1 := some 1, rs2 := some 1, imm := none, branch_target_idx := none, raw := "add x2, x1, x1", iid := 1 }, pc := 2, predicted_taken := false },
    ID_EX := { instr := { op := RV.Op.nop, rd := none, rs1 := none, rs2 := none, imm := none, branch_target_idx := none, raw := "nop", iid := -42 }, pc := 0, rs1 := 0, rs2 := 0, rd := 0, imm := 0, val1 := 0, val2 := 0, predicted_taken := false },
    EX_MEM := { instr := { op := RV.Op.lw, rd := some 1, rs1 := some 0, rs2 := none, imm := some 0, branch_target_idx := none, raw := "lw x1, 0(x0)", iid := 0 }, pc := 0, rd := 1, alu := 0, store_val := 0, branch_taken := false, branch_target := 0, predicted_taken := false },
    MEM_WB := { instr := { op := RV.Op.nop, rd := none, rs1 := none, rs2 := none, imm := none, branch_target_idx := none, raw := "nop", iid := -42 }, pc := 0, rd := 0, wb_val := 0, alu := 0, mem_read_val := 0 },
    last_events := { stall := true, stall_reason := "lw-use", hazard_detail := some { producer_pc := some 0, producer_op := "lw", producer_rd := some 1, consumer_op := "add", uses := [1, 1] }, branch_taken := false, mispredict := false, structural_stall := false, fwd_a := "none", fwd_b := "none" } }

def sLw4 (v : Int) : PipelineCPU :=
  { program := progLwUse,
    pc := 3,
    cycle := 4,
    regs := fun i => if i = 0 then 0 else wbRegs (sLw3 v) i,
    dmem := [(0, v)],
    forwarding := true,
    structural_on := false,
    predictor_mode := "none",
    predictor_table := [],
    retired := 0,
    stalls := 1,
    flushes := 0,
    mispredicts := 0,
    trace := [{ sIF := "lw x1, 0(x0)", sID := "NOP", sEX := "NOP", sMEM := "NOP", sWB := "NOP" }, { sIF := "add x2, x1, x1", sID := "lw x1, 0(x0)", sEX := "NOP", sMEM := "NOP", sWB := "NOP" }, { sIF := "add x2, x1, x1", sID := "NOP", sEX := "lw x1, 0(x0)", sMEM := "NOP", sWB := "NOP" }, { sIF := "NOP", sID := "add x2, x1, x1", sEX := "NOP", sMEM := "lw x1, 0(x0)", sWB := "lw x1, 0(x0)" }],
    trace_stage_pc := [{ stIF := none, stID := none, stEX := none, stMEM := none, stWB := none }, { stIF := some 0, stID := none, stEX := none, stMEM := none, stWB := none }, { stIF := some 1, stID := some 0, stEX := none, stMEM := none, stWB := none }, { stIF := some 2, stID := none, stEX := some 0, stMEM := some 0, stWB := none }],
    inst_meta := ["lw x1, 0(x0)", "add x2, x1, x1"],
    inst_status := [{ retired := false, retire_cycle := none, last_stage := "MEM" }, { retired := false, retire_cycle := none, last_stage := "IF" }],
    stall_breakdown := [("lw-use", 1)],
    addr_log := [RV.AddrEvent.aluEv 2 0 (RV.Op.lw) 0 0 0, RV.AddrEvent.lwEv 3 0 0 v],
    IF_ID := { instr := { op := RV.Op.nop, rd := none, rs1 := none, rs2 := none, imm := none, branch_target_idx := none, raw := "nop", iid := -42 }, pc := 2, predicted_taken := false },
    ID_EX := { instr := { op := RV.Op.add, rd := some 2, rs1 := some 1, rs2 := some 1, imm := none, branch_target_idx := none, raw := "add x2, x1, x1", iid := 1 }, pc := 2, rs1 := 1, rs2 := 1, rd := 2, imm := 0, val1 := 0, val2 := 0, predicted_taken := false },
    EX_MEM := { instr := { op := RV.Op.nop, rd := none, rs1 := none, rs2 := none, imm := none, branch_target_idx := none, raw := "nop", iid := -42 }, pc := 0, rd := 0, alu := 0, store_val := 0, branch_taken := false, branch_target := 0, predicted_taken := false },
    MEM_WB := { instr := { op := RV.Op.lw, rd := some 1, rs1 := some 0, rs2 := none, imm := some 0, branch_target_idx := none, raw := "lw x1, 0(x0)", iid := 0 }, pc := 0, rd := 1, wb_val := v, alu := 0, mem_read_val := v },
    last_events := { stall := false, stall_reason := "", hazard_detail := none, branch_taken := false, mispredict := false, structural_stall := false, fwd_a := "none", fwd_b := "none" } }

def sLw5 (v : Int) : PipelineCPU :=
  { program := progLwUse,
    pc := 4,
    cycle := 5,
    regs := fun i => if i = 0 then 0 else wbRegs (sLw4 v) i,
    dmem := [(0, v)],
    forwarding := true,
    structural_on := false,
    predictor_mode := "none",
    predictor_table := [],
    retired := 1,
    stalls := 1,
    flushes := 0,
    mispredicts := 0,
    trace := [{ sIF := "lw x1, 0(x0)", sID := "NOP", sEX := "NOP", sMEM := "NOP", sWB := "NOP" }, { sIF := "add x2, x1, x1", sID := "lw x1, 0(x0)", sEX := "NOP", sMEM := "NOP", sWB := "NOP" }, { sIF := "add x2, x1, x1", sID := "NOP", sEX := "lw x1, 0(x0)", sMEM := "NOP", sWB := "NOP" }, { sIF := "NOP", sID := "add x2, x1, x1", sEX := "NOP", sMEM := "lw x1, 0(x0)", sWB := "lw x1, 0(x0)" }, { sIF := "NOP", sID := "NOP", sEX := "add x2, x1, x1", sMEM := "NOP", sWB := "NOP" }],
    trace_stage_pc := [{ stIF := none, stID := none, stEX := none, stMEM := none, stWB := none }, { stIF := some 0, stID := none, stEX := none, stMEM := none, stWB := none }, { stIF := some 1, stID := some 0, stEX := none, stMEM := none, stWB := none }, { stIF := some 2, stID := none, stEX := some 0, stMEM := some 0, stWB := none }, { stIF := none, stID := some 2, stEX := none, stMEM := none, stWB := some 0 }],
    inst_meta := ["lw x1, 0(x0)", "add x2, x1, x1"],
    inst_status := [{ retired := true, retire_cycle := some 4, last_stage := "WB" }, { retired := false, retire_cycle := none, last_stage := "IF" }],
    stall_breakdown := [("lw-use", 1)],
    addr_log := [RV.AddrEvent.aluEv 2 0 (RV.Op.lw) 0 0 0, RV.AddrEvent.lwEv 3 0 0 v, RV.AddrEvent.aluEv 4 2 (RV.Op.add) v v (v + v)],
    IF_ID := { instr := { op := RV.Op.nop, rd := none, rs1 := none, rs2 := none, imm := none, branch_target_idx := none, raw := "nop", iid := -42 }, pc := 3, predicted_taken := false },
    ID_EX := { instr := { op := RV.Op.nop, rd := none, rs1 := none, rs2 := none, imm := none, branch_target_idx := none, raw := "nop", iid := -42 }, pc := 0, rs1 := 0, rs2 := 0, rd := 0, imm := 0, val1 := 0, val2 := 0, predicted_taken := false },
    EX_MEM := { instr := { op := RV.Op.add, rd := some 2, rs1 := some 1, rs2 := some 1, imm := none, branch_target_idx := none, raw := "add x2, x1, x1", iid := 1 }, pc := 2, rd := 2, alu := (v + v), store_val := 0, branch_taken := false, branch_target := 0, predicted_taken := false },
    MEM_WB := { instr := { op := RV.Op.nop, rd := none, rs1 := none, rs2 := none, imm := none, branch_target_idx := none, raw := "nop", iid := -42 }, pc := 0, rd := 0, wb_val := 0, alu := 0, mem_read_val := 0 },
    last_events := { stall := false, stall_reason := "", hazard_detail := none, branch_taken := false, mispredict := false, structural_stall := false, fwd_a := "MEM/WB", fwd_b := "MEM/WB" } }

def sLw6 (v : Int) : PipelineCPU :=
  { program := progLwUse,
    pc := 5,
    cycle := 6,
    regs := fun i => if i = 0 then 0 else wbRegs (sLw5 v) i,
    dmem := [(0, v)],
    forwarding := true,
    structural_on := false,
    predictor_mode := "none",
    predictor_table := [],
    retired := 1,
    stalls := 1,
    flushes := 0,
    mispredicts := 0,
    trace := [{ sIF := "lw x1, 0(x0)", sID := "NOP", sEX := "NOP", sMEM := "NOP", sWB := "NOP" }, { sIF := "add x2, x1, x1", sID := "lw x1, 0(x0)", sEX := "NOP", sMEM := "NOP", sWB := "NOP" }, { sIF := "add x2, x1, x1", sID := "NOP", sEX := "lw x1, 0(x0)", sMEM := "NOP", sWB := "NOP" }, { sIF := "NOP", sID := "add x2, x1, x1", sEX := "NOP", sMEM := "lw x1, 0(x0)", sWB := "lw x1, 0(x0)" }, { sIF := "NOP", sID := "NOP", sEX := "add x2, x1, x1", sMEM := "NOP", sWB := "NOP" }, { sIF := "NOP", sID := "NOP", sEX := "NOP", sMEM := "add x2, x1, x1", sWB := "add x2, x1, x1" }],
    trace_stage_pc := [{ stIF := none, stID := none, stEX := none, stMEM := none, stWB := none }, { stIF := some 0, stID := none, stEX := none, stMEM := none, stWB := none }, { stIF := some 1, stID := some 0, stEX := none, stMEM := none, stWB := none }, { stIF := some 2, stID := none, stEX := some 0, stMEM := some 0, stWB := none }, { stIF := none, stID := some 2, stEX := none, stMEM := none, stWB := some 0 }, { stIF := none, stID := none, stEX := some 2, stMEM := some 2, stWB := none }],
    inst_meta := ["lw x1, 0(x0)", "add x2, x1, x1"],
    inst_status := [{ retired := true, retire_cycle := some 4, last_stage := "WB" }, { retired := false, retire_cycle := none, last_stage := "IF" }],
    stall_breakdown := [("lw-use", 1)],
    addr_log := [RV.AddrEvent.aluEv 2 0 (RV.Op.lw) 0 0 0, RV.AddrEvent.lwEv 3 0 0 v, RV.AddrEvent.aluEv 4 2 (RV.Op.add) v v (v + v)],
    IF_ID := { instr := { op := RV.Op.nop, rd := none, rs1 := none, rs2 := none, imm := none, branch_target_idx := none, raw := "nop", iid := -42 }, pc := 4, predicted_taken := false },
    ID_EX := { instr := { op := RV.Op.nop, rd := none, rs1 := none, rs2 := none, imm := none, branch_target_idx := none, raw := "nop", iid := -42 }, pc := 0, rs1 := 0, rs2 := 0, rd := 0, imm := 0, val1 := 0, val2 := 0, predicted_taken := false },
    EX_MEM := { instr := { op := RV.Op.nop, rd := none, rs1 := none, rs2 := none, imm := none, branch_target_idx := none, raw := "nop", iid := -42 }, pc := 0, rd := 0, alu := 0, store_val := 0, branch_taken := false, branch_target := 0, predicted_taken := false },
    MEM_WB := { instr := { op := RV.Op.add, rd := some 2, rs1 := some 1, rs2 := some 1, imm := none, branch_target_idx := none, raw := "add x2, x1, x1", iid := 1 }, pc := 2, rd := 2, wb_val := (v + v), alu := (v + v), mem_read_val := 0 },
    last_events := { stall := false, stall_reason := "", hazard_detail := none, branch_taken := false, mispredict := false, structural_stall := false, fwd_a := "none", fwd_b := "none" } }

def sLw7 (v : Int) : PipelineCPU :=
  { program := progLwUse,
    pc := 6,
    cycle := 7,
    regs := fun i => if i = 0 then 0 else wbRegs (sLw6 v) i,
    dmem := [(0, v)],
    forwarding := true,
    structural_on := false,
    predictor_mode := "none",
    predictor_table := [],
    retired := 2,
    stalls := 1,
    flushes := 0,
    mispredicts := 0,
    trace := [{ sIF := "lw x1, 0(x0)", sID := "NOP", sEX := "NOP", sMEM := "NOP", sWB := "NOP" }, { sIF := "add x2, x1, x1", sID := "lw x1, 0(x0)", sEX := "NOP", sMEM := "NOP", sWB := "NOP" }, { sIF := "add x2, x1, x1", sID := "NOP", sEX := "lw x1, 0(x0)", sMEM := "NOP", sWB := "NOP" }, { sIF := "NOP", sID := "add x2, x1, x1", sEX := "NOP", sMEM := "lw x1, 0(x0)", sWB := "lw x1, 0(x0)" }, { sIF := "NOP", sID := "NOP", sEX := "add x2, x1, x1", sMEM := "NOP", sWB := "NOP" }, { sIF := "NOP", sID := "NOP", sEX := "NOP", sMEM := "add x2, x1, x1", sWB := "add x2, x1, x1" }, { sIF := "NOP", sID := "NOP", sEX := "NOP", sMEM := "NOP", sWB := "NOP" }],
    trace_stage_pc := [{ stIF := none, stID := none, stEX := none, stMEM := none, stWB := none }, { stIF := some 0, stID := none, stEX := none, stMEM := none, stWB := none }, { stIF := some 1, stID := some 0, stEX := none, stMEM := none, stWB := none }, { stIF := some 2, stID := none, stEX := some 0, stMEM := some 0, stWB := none }, { stIF := none, stID := some 2, stEX := none, stMEM := none, stWB := some 0 }, { stIF := none, stID := none, stEX := some 2, stMEM := some 2, stWB := none }, { stIF := none, stID := none, stEX := none, stMEM := none, stWB := some 2 }],
    inst_meta := ["lw x1, 0(x0)", "add x2, x1, x1"],
    inst_status := [{ retired := true, retire_cycle := some 4, last_stage := "WB" }, { retired := false, retire_cycle := none, last_stage := "IF" }],
    stall_breakdown := [("lw-use", 1)],
    addr_log := [RV.AddrEvent.aluEv 2 0 (RV.Op.lw) 0 0 0, RV.AddrEvent.lwEv 3 0 0 v, RV.AddrEvent.aluEv 4 2 (RV.Op.add) v v (v + v)],
    IF_ID := { instr := { op := RV.Op.nop, rd := none, rs1 := none, rs2 := none, imm := none, branch_target_idx := none, raw := "nop", iid := -42 }, pc := 5, predicted_taken := false },
    ID_EX := { instr := { op := RV.Op.nop, rd := none, rs1 := none, rs2 := none, imm := none, branch_target_idx := none, raw := "nop", iid := -42 }, pc := 0, rs1 := 0, rs2 := 0, rd := 0, imm := 0, val1 := 0, val2 := 0, predicted_taken := false },
    EX_MEM := { instr := { op := RV.Op.nop, rd := none, rs1 := none, rs2 := none, imm := none, branch_target_idx := none, raw := "nop", iid := -42 }, pc := 0, rd := 0, alu := 0, store_val := 0, branch_taken := false, branch_target := 0, predicted_taken := false },
    MEM_WB := { instr := { op := RV.Op.nop, rd := none, rs1 := none, rs2 := none, imm := none, branch_target_idx := none, raw := "nop", iid := -42 }, pc := 0, rd := 0, wb_val := 0, alu := 0, mem_read_val := 0 },
    last_events := { stall := false, stall_reason := "", hazard_detail := none, branch_taken := false, mispredict := false, structural_stall := false, fwd_a := "none", fwd_b := "none" } }

def sLw8 (v : Int) : PipelineCPU :=
  { program := progLwUse,
    pc := 7,
    cycle := 8,
    regs := fun i => if i = 0 then 0 else wbRegs (sLw7 v) i,
    dmem := [(0, v)],
    forwarding := true,
    structural_on := false,
    predictor_mode := "none",
    predictor_table := [],
    retired := 2,
    stalls := 1,
    flushes := 0,
    mispredicts := 0,
    trace := [{ sIF := "lw x1, 0(x0)", sID := "NOP", sEX := "NOP", sMEM := "NOP", sWB := "NOP" }, { sIF := "add x2, x1, x1", sID := "lw x1, 0(x0)", sEX := "NOP", sMEM := "NOP", sWB := "NOP" }, { sIF := "add x2, x1, x1", sID := "NOP", sEX := "lw x1, 0(x0)", sMEM := "NOP", sWB := "NOP" }, { sIF := "NOP", sID := "add x2, x1, x1", sEX := "NOP", sMEM := "lw x1, 0(x0)", sWB := "lw x1, 0(x0)" }, { sIF := "NOP", sID := "NOP", sEX := "add x2, x1, x1", sMEM := "NOP", sWB := "NOP" }, { sIF := "NOP", sID := "NOP", sEX := "NOP", sMEM := "add x2, x1, x1", sWB := "add x2, x1, x1" }, { sIF := "NOP", sID := "NOP", sEX := "NOP", sMEM := "NOP", sWB := "NOP" }, { sIF := "NOP", sID := "NOP", sEX := "NOP", sMEM := "NOP", sWB := "NOP" }],
    trace_stage_pc := [{ stIF := none, stID := none, stEX := none, stMEM := none, stWB := none }, { stIF := some 0, stID := none, stEX := none, stMEM := none, stWB := none }, { stIF := some 1, stID := some 0, stEX := none, stMEM := none, stWB := none }, { stIF := some 2, stID := none, stEX := some 0, stMEM := some 0, stWB := none }, { stIF := none, stID := some 2, stEX := none, stMEM := none, stWB := some 0 }, { stIF := none, stID := none, stEX := some 2, stMEM := some 2, stWB := none }, { stIF := none, stID := none, stEX := none, stMEM := none, stWB := some 2 }, { stIF := none, stID := none, stEX := none, stMEM := none, stWB := none }],
    inst_meta := ["lw x1, 0(x0)", "add x2, x1, x1"],
    inst_status := [{ retired := true, retire_cycle := some 4, last_stage := "WB" }, { retired := false, retire_cycle := none, last_stage := "IF" }],
    stall_breakdown := [("lw-use", 1)],
    addr_log := [RV.AddrEvent.aluEv 2 0 (RV.Op.lw) 0 0 0, RV.AddrEvent.lwEv 3 0 0 v, RV.AddrEvent.aluEv 4 2 (RV.Op.add) v v (v + v)],
    IF_ID := { instr := { op := RV.Op.nop, rd := none, rs1 := none, rs2 := none, imm := none, branch_target_idx := none, raw := "nop", iid := -42 }, pc := 6, predicted_taken := false },
    ID_EX := { instr := { op := RV.Op.nop, rd := none, rs1 := none, rs2 := none, imm := none, branch_target_idx := none, raw := "nop", iid := -42 }, pc := 0, rs1 := 0, rs2 := 0, rd := 0, imm := 0, val1 := 0, val2 := 0, predicted_taken := false },
    EX_MEM := { instr := { op := RV.Op.nop, rd := none, rs1 := none, rs2 := none, imm := none, branch_target_idx := none, raw := "nop", iid := -42 }, pc := 0, rd := 0, alu := 0, store_val := 0, branch_taken := false, branch_target := 0, predicted_taken := false },
    MEM_WB := { instr := { op := RV.Op.nop, rd := none, rs1 := none, rs2 := none, imm := none, branch_target_idx := none, raw := "nop", iid := -42 }, pc := 0, rd := 0, wb_val := 0, alu := 0, mem_read_val := 0 },
    last_events := { stall := false, stall_reason := "", hazard_detail := none, branch_taken := false, mispredict := false, structural_stall := false, fwd_a := "none", fwd_b := "none" } }

def sLw9 (v : Int) : PipelineCPU :=
  { program := progLwUse,
    pc := 8,
    cycle := 9,
    regs := fun i => if i = 0 then 0 else wbRegs (sLw8 v) i,
    dmem := [(0, v)],
    forwarding := true,
    structural_on := false,
    predictor_mode := "none",
    predictor_table := [],
    retired := 2,
    stalls := 1,
    flushes := 0,
    mispredicts := 0,
    trace := [{ sIF := "lw x1, 0(x0)", sID := "NOP", sEX := "NOP", sMEM := "NOP", sWB := "NOP" }, { sIF := "add x2, x1, x1", sID := "lw x1, 0(x0)", sEX := "NOP", sMEM := "NOP", sWB := "NOP" }, { sIF := "add x2, x1, x1", sID := "NOP", sEX := "lw x1, 0(x0)", sMEM := "NOP", sWB := "NOP" }, { sIF := "NOP", sID := "add x2, x1, x1", sEX := "NOP", sMEM := "lw x1, 0(x0)", sWB := "lw x1, 0(x0)" }, { sIF := "NOP", sID := "NOP", sEX := "add x2, x1, x1", sMEM := "NOP", sWB := "NOP" }, { sIF := "NOP", sID := "NOP", sEX := "NOP", sMEM := "add x2, x1, x1", sWB := "add x2, x1, x1" }, { sIF := "NOP", sID := "NOP", sEX := "NOP", sMEM := "NOP", sWB := "NOP" }, { sIF := "NOP", sID := "NOP", sEX := "NOP", sMEM := "NOP", sWB := "NOP" }, { sIF := "NOP", sID := "NOP", sEX := "NOP", sMEM := "NOP", sWB := "NOP" }],
    trace_stage_pc := [{ stIF := none, stID := none, stEX := none, stMEM := none, stWB := none }, { stIF := some 0, stID := none, stEX := none, stMEM := none, stWB := none }, { stIF := some 1, stID := some 0, stEX := none, stMEM := none, stWB := none }, { stIF := some 2, stID := none, stEX := some 0, stMEM := some 0, stWB := none }, { stIF := none, stID := some 2, stEX := none, stMEM := none, stWB := some 0 }, { stIF := none, stID := none, stEX := some 2, stMEM := some 2, stWB := none }, { stIF := none, stID := none, stEX := none, stMEM := none, stWB := some 2 }, { stIF := none, stID := none, stEX := none, stMEM := none, stWB := none }, { stIF := none, stID := none, stEX := none, stMEM := none, stWB := none }],
    inst_meta := ["lw x1, 0(x0)", "add x2, x1, x1"],
    inst_status := [{ retired := true, retire_cycle := some 4, last_stage := "WB" }, { retired := false, retire_cycle := none, last_stage := "IF" }],
    stall_breakdown := [("lw-use", 1)],
    addr_log := [RV.AddrEvent.aluEv 2 0 (RV.Op.lw) 0 0 0, RV.AddrEvent.lwEv 3 0 0 v, RV.AddrEvent.aluEv 4 2 (RV.Op.add) v v (v + v)],
    IF_ID := { instr := { op := RV.Op.nop, rd := none, rs1 := none, rs2 := none, imm := none, branch_target_idx := none, raw := "nop", iid := -42 }, pc := 7, predicted_taken := false },
    ID_EX := { instr := { op := RV.Op.nop, rd := none, rs1 := none, rs2 := none, imm := none, branch_target_idx := none, raw := "nop", iid := -42 }, pc := 0, rs1 := 0, rs2 := 0, rd := 0, imm := 0, val1 := 0, val2 := 0, predicted_taken := false },
    EX_MEM := { instr := { op := RV.Op.nop, rd := none, rs1 := none, rs2 := none, imm := none, branch_target_idx := none, raw := "nop", iid := -42 }, pc := 0, rd := 0, alu := 0, store_val := 0, branch_taken := false, branch_target := 0, predicted_taken := false },
    MEM_WB := { instr := { op := RV.Op.nop, rd := none, rs1 := none, rs2 := none, imm := none, branch_target_idx := none, raw := "nop", iid := -42 }, pc := 0, rd := 0, wb_val := 0, alu := 0, mem_read_val := 0 },
    last_events := { stall := false, stall_reason := "", hazard_detail := none, branch_taken := false, mispredict := false, structural_stall := false, fwd_a := "none", fwd_b := "none" } }

def sLw10 (v : Int) : PipelineCPU :=
  { program := progLwUse,
    pc := 9,
    cycle := 10,
    regs := fun i => if i = 0 then 0 else wbRegs (sLw9 v) i,
    dmem := [(0, v)],
    forwarding := true,
    structural_on := false,
    predictor_mode := "none",
    predictor_table := [],
    retired := 2,
    stalls := 1,
    flushes := 0,
    mispredicts := 0,
    trace := [{ sIF := "lw x1, 0(x0)", sID := "NOP", sEX := "NOP", sMEM := "NOP", sWB := "NOP" }, { sIF := "add x2, x1, x1", sID := "lw x1, 0(x0)", sEX := "NOP", sMEM := "NOP", sWB := "NOP" }, { sIF := "add x2, x1, x1", sID := "NOP", sEX := "lw x1, 0(x0)", sMEM := "NOP", sWB := "NOP" }, { sIF := "NOP", sID := "add x2, x1, x1", sEX := "NOP", sMEM := "lw x1, 0(x0)", sWB := "lw x1, 0(x0)" }, { sIF := "NOP", sID := "NOP", sEX := "add x2, x1, x1", sMEM := "NOP", sWB := "NOP" }, { sIF := "NOP", sID := "NOP", sEX := "NOP", sMEM := "add x2, x1, x1", sWB := "add x2, x1, x1" }, { sIF := "NOP", sID := "NOP", sEX := "NOP", sMEM := "NOP", sWB := "NOP" }, { sIF := "NOP", sID := "NOP", sEX := "NOP", sMEM := "NOP", sWB := "NOP" }, { sIF := "NOP", sID := "NOP", sEX := "NOP", sMEM := "NOP", sWB := "NOP" }, { sIF := "NOP", sID := "NOP", sEX := "NOP", sMEM := "NOP", sWB := "NOP" }],
    trace_stage_pc := [{ stIF := none, stID := none, stEX := none, stMEM := none, stWB := none }, { stIF := some 0, stID := none, stEX := none, stMEM := none, stWB := none }, { stIF := some 1, stID := some 0, stEX := none, stMEM := none, stWB := none }, { stIF := some 2, stID := none, stEX := some 0, stMEM := some 0, stWB := none }, { stIF := none, stID := some 2, stEX := none, stMEM := none, stWB := some 0 }, { stIF := none, stID := none, stEX := some 2, stMEM := some 2, stWB := none }, { stIF := none, stID := none, stEX := none, stMEM := none, stWB := some 2 }, { stIF := none, stID := none, stEX := none, stMEM := none, stWB := none }, { stIF := none, stID := none, stEX := none, stMEM := none, stWB := none }, { stIF := none, stID := none, stEX := none, stMEM := none, stWB := none }],
    inst_meta := ["lw x1, 0(x0)", "add x2, x1, x1"],
    inst_status := [{ retired := true, retire_cycle := some 4, last_stage := "WB" }, { retired := false, retire_cycle := none, last_stage := "IF" }],
    stall_breakdown := [("lw-use", 1)],
    addr_log := [RV.AddrEvent.aluEv 2 0 (RV.Op.lw) 0 0 0, RV.AddrEvent.lwEv 3 0 0 v, RV.AddrEvent.aluEv 4 2 (RV.Op.add) v v (v + v)],
    IF_ID := { instr := { op := RV.Op.nop, rd := none, rs1 := none, rs2 := none, imm := none, branch_target_idx := none, raw := "nop", iid := -42 }, pc := 8, predicted_taken := false },
    ID_EX := { instr := { op := RV.Op.nop, rd := none, rs1 := none, rs2 := none, imm := none, branch_target_idx := none, raw := "nop", iid := -42 }, pc := 0, rs1 := 0, rs2 := 0, rd := 0, imm := 0, val1 := 0, val2 := 0, predicted_taken := false },
    EX_MEM := { instr := { op := RV.Op.nop, rd := none, rs1 := none, rs2 := none, imm := none, branch_target_idx := none, raw := "nop", iid := -42 }, pc := 0, rd := 0, alu := 0, store_val := 0, branch_taken := false, branch_target := 0, predicted_taken := false },
    MEM_WB := { instr := { op := RV.Op.nop, rd := none, rs1 := none, rs2 := none, imm := none, branch_target_idx := none, raw := "nop", iid := -42 }, pc := 0, rd := 0, wb_val := 0, alu := 0, mem_read_val := 0 },
    last_events := { stall := false, stall_reason := "", hazard_detail := none, branch_taken := false, mispredict := false, structural_stall := false, fwd_a := "none", fwd_b := "none" } }

/-- The instruction produced for `beq x0, x0, 7` (numeric target fallback). -/
def beq7 : Instruction :=
  { op := Op.beq, rs1 := some 0, rs2 := some 0, branch_target_idx := some 7,
    raw := "beq x0, x0, 7", iid := 0 }

/-- The instruction produced for `beq x0, x0, loop` under `loop: → 0`. -/
def beqLoop : Instruction :=
  { op := Op.beq, rs1 := some 0, rs2 := some 0, branch_target_idx := some 0,
    raw := "beq x0, x0, loop", iid := 0 }

/-- Whether `sub` occurs as a contiguous substring of `hay` (used to state
which parse errors carry the offending source line). -/
def strContains (hay sub : String) : Bool :=
  (List.range (hay.data.length + 1)).any fun i =>
    sub.data.isPrefixOf (hay.data.drop i)

/-!  Helper lemmas. -/

theorem dictGet_set_self {α β : Type} [DecidableEq α]
    (m : List (α × β)) (k : α) (v d : β) :
    dictGet (dictSet m k v) k d = v := by
  induction m with
  | nil => simp [dictGet, dictSet]
  | cons p t ih =>
    obtain ⟨a, b⟩ := p
    by_cases h : a = k <;> simp [dictGet, dictSet, h, ih]

theorem dictGet_set_ne {α β : Type} [DecidableEq α]
    (m : List (α × β)) (k k' : α) (v d : β) (h : k ≠ k') :
    dictGet (dictSet m k v) k' d = dictGet m k' d := by
  induction m with
  | nil => simp [dictGet, dictSet, h]
  | cons p t ih =>
    obtain ⟨a, b⟩ := p
    by_cases ha : a = k
    · subst ha; simp [dictGet, dictSet, h]
    · simp [dictGet, dictSet, ha, ih]

theorem mem_dictSet {α β : Type} [DecidableEq α]
    (m : List (α × β)) (k : α) (v : β) (p : α × β)
    (hp : p ∈ dictSet m k v) : p ∈ m ∨ p = (k, v) := by
  induction m with
  | nil => simp [dictSet] at hp; simp [hp]
  | cons q t ih =>
    obtain ⟨a, b⟩ := q
    by_cases ha : a = k
    · subst ha
      simp [dictSet] at hp
      rcases hp with h | h
      · right; simp [h]
      · left; simp [h]
    · simp [dictSet, ha] at hp
      rcases hp with h | h
      · left; simp [h]
      · rcases ih h with h' | h'
        · left; simp [h']
        · right; exact h'

theorem stepN_succ (cpu : PipelineCPU) (n : Nat) :
    stepN cpu (n + 1) = stepN (step cpu) n := rfl

theorem stepN_add (cpu : PipelineCPU) (a b : Nat) :
    stepN cpu (a + b) = stepN (stepN cpu a) b := by
  induction a generalizing cpu with
  | zero => rw [Nat.zero_add]; rfl
  | succ a ih =>
    rw [Nat.succ_add, stepN_succ, ih (step cpu)]
    rfl

/-!  Projections of `step`: each field of the post-state, by definition. -/

theorem step_program (cpu : PipelineCPU) : (step cpu).program = cpu.program := rfl

theorem step_cycle (cpu : PipelineCPU) : (step cpu).cycle = cpu.cycle + 1 := rfl

theorem step_trace (cpu : PipelineCPU) :
    (step cpu).trace = cpu.trace ++ [stepSnapRow cpu] := rfl

theorem step_pc (cpu : PipelineCPU) : (step cpu).pc = pcNext1 cpu := rfl

theorem step_IFID (cpu : PipelineCPU) : (step cpu).IF_ID = nextIFID1 cpu := rfl

theorem step_IDEX (cpu : PipelineCPU) : (step cpu).ID_EX = nextIDEX cpu := rfl

theorem step_EXMEM (cpu : PipelineCPU) : (step cpu).EX_MEM = nextEXMEM cpu := rfl

theorem step_MEMWB (cpu : PipelineCPU) : (step cpu).MEM_WB = nextMEMWB cpu := rfl

theorem step_regs (cpu : PipelineCPU) :
    (step cpu).regs = fun i => if i = 0 then 0 else wbRegs cpu i := rfl

theorem step_retired (cpu : PipelineCPU) : (step cpu).retired = wbRetired cpu := rfl

theorem step_dmem (cpu : PipelineCPU) : (step cpu).dmem = memDmem cpu := rfl

theorem step_stalls (cpu : PipelineCPU) :
    (step cpu).stalls =
      if structuralFire cpu then
        (if (detect_stall_decode cpu).1 then cpu.stalls + 1 else cpu.stalls) + 1
      else
        (if (detect_stall_decode cpu).1 then cpu.stalls + 1 else cpu.stalls) := rfl

theorem step_breakdown (cpu : PipelineCPU) :
    (step cpu).stall_breakdown =
      (let b1 :=
        if (detect_stall_decode cpu).1 then
          dictSet cpu.stall_breakdown (detect_stall_decode cpu).2.1
            (dictGet cpu.stall_breakdown (detect_stall_decode cpu).2.1 0 + 1)
        else cpu.stall_breakdown
      if structuralFire cpu then
        dictSet b1 "structural" (dictGet b1 "structural" 0 + 1)
      else b1) := rfl

theorem step_mispredicts (cpu : PipelineCPU) :
    (step cpu).mispredicts =
      if mispredictFire cpu then cpu.mispredicts + 1 else cpu.mispredicts := rfl

theorem step_flushes (cpu : PipelineCPU) :
    (step cpu).flushes =
      if mispredictFire cpu then cpu.flushes + 1 else cpu.flushes := rfl

theorem step_inst_status (cpu : PipelineCPU) :
    (step cpu).inst_status =
      setLastStage (setLastStage (setLastStage (setLastStage
        (setLastStage (wbStatus cpu) (stagePCsStart cpu).stIF "IF")
        (stagePCsStart cpu).stID "ID") (stagePCsStart cpu).stEX "EX")
        (stagePCsStart cpu).stMEM "MEM") (stagePCsStart cpu).stWB "WB" := rfl

/-!  Stage-component lemmas. -/

theorem detect_stall_of_nop (cpu : PipelineCPU)
    (h : cpu.IF_ID.instr.op = Op.nop) :
    detect_stall_decode cpu = (false, "", none) := by
  simp [detect_stall_decode, Instruction.is_nop, h]

theorem structuralFire_of_nop (cpu : PipelineCPU)
    (h : cpu.EX_MEM.instr.op = Op.nop) : structuralFire cpu = false := by
  simp [structuralFire, Instruction.is_nop, h]

theorem nextEXMEM_instr (cpu : PipelineCPU) :
    (nextEXMEM cpu).instr = cpu.ID_EX.instr := by
  unfold nextEXMEM
  dsimp only
  split_ifs <;> rfl

theorem nextMEMWB_instr (cpu : PipelineCPU) :
    (nextMEMWB cpu).instr = cpu.EX_MEM.instr := by
  unfold nextMEMWB
  dsimp only
  split_ifs <;> rfl

theorem resolvesBeq_of_not_beq (cpu : PipelineCPU)
    (h : cpu.ID_EX.instr.op ≠ Op.beq) : resolvesBeq cpu = false := by
  simp [resolvesBeq, nextEXMEM_instr, Instruction.is_nop]
  intro hb
  exact absurd hb h

theorem mispredictFire_of_not_beq (cpu : PipelineCPU)
    (h : cpu.ID_EX.instr.op ≠ Op.beq) : mispredictFire cpu = false := by
  simp [mispredictFire, resolvesBeq_of_not_beq cpu h]

theorem fetch_oob (cpu : PipelineCPU)
    (h : (cpu.program.length : Int) ≤ cpu.pc) : fetch cpu cpu.pc = NOP := by
  unfold fetch
  rw [if_neg]
  omega

theorem predict_taken_nop (cpu : PipelineCPU) (pc : Int) :
    predict_taken cpu NOP pc = false := by
  simp [predict_taken, NOP, Instruction.is_nop]

theorem wbRegs_of_nop (cpu : PipelineCPU)
    (h : cpu.MEM_WB.instr.op = Op.nop) : wbRegs cpu = cpu.regs := by
  simp [wbRegs, Instruction.is_nop, h]

theorem wbStatus_of_nop (cpu : PipelineCPU)
    (h : cpu.MEM_WB.instr.op = Op.nop) : wbStatus cpu = cpu.inst_status := by
  simp [wbStatus, Instruction.is_nop, h]

theorem wbRetired_of_nop (cpu : PipelineCPU)
    (h : cpu.MEM_WB.instr.op = Op.nop) : wbRetired cpu = cpu.retired := by
  simp [wbRetired, Instruction.is_nop, h]

theorem memDmem_of_nop (cpu : PipelineCPU)
    (h : cpu.EX_MEM.instr.op = Op.nop) : memDmem cpu = cpu.dmem := by
  simp [memDmem, Instruction.is_nop, h]

/-- One cycle of a drained engine changes no observable state: the latches
stay no-ops, the program counter keeps running off the end, and registers,
memory, status and all counters are untouched (re-stepping after completion
is a side-effect-free steady state). -/
theorem step_drained (cpu : PipelineCPU) (h : Drained cpu) :
    Drained (step cpu) ∧ (step cpu).regs = cpu.regs ∧
    (step cpu).inst_status = cpu.inst_status ∧
    (step cpu).retired = cpu.retired ∧ (step cpu).stalls = cpu.stalls ∧
    (step cpu).flushes = cpu.flushes ∧
    (step cpu).mispredicts = cpu.mispredicts ∧
    (step cpu).stall_breakdown = cpu.stall_breakdown ∧
    (step cpu).dmem = cpu.dmem := by
  obtain ⟨h1, h2, h3, h4, h5, h6⟩ := h
  have hstall := detect_stall_of_nop cpu h1
  have hstruct := structuralFire_of_nop cpu h3
  have hmis : mispredictFire cpu = false := by
    apply mispredictFire_of_not_beq
    rw [h2]
    intro hc
    cases hc
  have hregs : (step cpu).regs = cpu.regs := by
    rw [step_regs, wbRegs_of_nop cpu h4]
    funext i
    by_cases hi : i = 0
    · rw [hi, if_pos rfl, h6]
    · rw [if_neg hi]
  have hfetchStall : fetchStall cpu = false := by
    simp [fetchStall, hstall, hstruct]
  have hIF : (step cpu).IF_ID.instr = NOP := by
    rw [step_IFID]
    unfold nextIFID1
    rw [if_neg (by simp [hmis])]
    unfold nextIFID0
    rw [if_pos (by simp [hfetchStall])]
    simp [fetch_oob cpu h5]
  have hpcs : stagePCsStart cpu = {} := by
    simp [stagePCsStart, Instruction.is_nop, h1, h2, h3, h4]
  refine ⟨⟨?_, ?_, ?_, ?_, ?_, ?_⟩, hregs, ?_, ?_, ?_, ?_, ?_, ?_, ?_⟩
  · rw [hIF]; rfl
  · rw [step_IDEX]
    unfold nextIDEX
    rw [hstall]
    simp [Instruction.is_nop, h1]
    rfl
  · rw [step_EXMEM, nextEXMEM_instr, h2]
  · rw [step_MEMWB, nextMEMWB_instr, h3]
  · rw [step_program, step_pc]
    unfold pcNext1 pcNext0
    simp only [hmis, hfetchStall, fetch_oob cpu h5, predict_taken_nop,
      Bool.false_eq_true, if_false, Bool.not_false, if_true, Bool.false_and]
    omega
  · rw [hregs, h6]
  · rw [step_inst_status, hpcs, wbStatus_of_nop cpu h4]
    rfl
  · rw [step_retired, wbRetired_of_nop cpu h4]
  · rw [step_stalls, hstruct, hstall]
    simp
  · rw [step_flushes, hmis]
    simp
  · rw [step_mispredicts, hmis]
    simp
  · rw [step_breakdown]
    simp [hstall, hstruct]
  · rw [step_dmem, memDmem_of_nop cpu h3]

/-- Iterating `step` from a drained engine leaves every observable unchanged. -/
theorem stepN_drained (cpu : PipelineCPU) (h : Drained cpu) (k : Nat) :
    Drained (stepN cpu k) ∧ (stepN cpu k).regs = cpu.regs ∧
    (stepN cpu k).inst_status = cpu.inst_status ∧
    (stepN cpu k).retired = cpu.retired ∧ (stepN cpu k).stalls = cpu.stalls ∧
    (stepN cpu k).flushes = cpu.flushes ∧
    (stepN cpu k).mispredicts = cpu.mispredicts ∧
    (stepN cpu k).stall_breakdown = cpu.stall_breakdown ∧
    (stepN cpu k).dmem = cpu.dmem := by
  induction k generalizing cpu with
  | zero => exact ⟨h, rfl, rfl, rfl, rfl, rfl, rfl, rfl, rfl⟩
  | succ k ih =>
    obtain ⟨hd, e1, e2, e3, e4, e5, e6, e7, e8⟩ := step_drained cpu h
    obtain ⟨hd', f1, f2, f3, f4, f5, f6, f7, f8⟩ := ih (step cpu) hd
    rw [stepN_succ]
    exact ⟨hd', by rw [f1, e1], by rw [f2, e2], by rw [f3, e3], by rw [f4, e4],
      by rw [f5, e5], by rw [f6, e6], by rw [f7, e7], by rw [f8, e8]⟩

theorem step_regs_zero (cpu : PipelineCPU) : (step cpu).regs 0 = 0 := by
  rw [step_regs]
  simp

theorem stepN_regs_zero (cpu : PipelineCPU) (k : Nat) :
    (stepN cpu (k + 1)).regs 0 = 0 := by
  induction k generalizing cpu with
  | zero => exact step_regs_zero cpu
  | succ k ih => rw [stepN_succ]; exact ih (step cpu)

theorem wbRegs_of_rd_zero (cpu : PipelineCPU) (h : cpu.MEM_WB.rd = 0) :
    wbRegs cpu = cpu.regs := by
  simp [wbRegs, h]

/-- C3: in every engine state, reading register 0 through `_read_reg` yields
0; after any positive number of cycles the register file holds 0 at index 0
(`step` rewrites it each cycle); and a writeback whose destination is
register 0 commits nothing — the post-step register file is the pre-step one
with index 0 pinned to zero. -/
theorem register_zero_invariant :
    ∀ (cpu : PipelineCPU) (k : Nat),
      read_reg cpu 0 = 0 ∧
      (stepN cpu (k + 1)).regs 0 = 0 ∧
      (cpu.MEM_WB.rd = 0 →
        (step cpu).regs = fun i => if i = 0 then 0 else cpu.regs i) := by
  intro cpu k
  refine ⟨rfl, stepN_regs_zero cpu k, fun h => ?_⟩
  rw [step_regs, wbRegs_of_rd_zero cpu h]

/-- C3 witness: the invariant applied at the cold-start state. -/
theorem register_zero_invariant_witness :
    read_reg ({} : PipelineCPU) 0 = 0 ∧
    (stepN ({} : PipelineCPU) 1).regs 0 = 0 ∧
    (step ({} : PipelineCPU)).regs =
      fun i => if i = 0 then 0 else ({} : PipelineCPU).regs i :=
  ⟨(register_zero_invariant {} 0).1, (register_zero_invariant {} 0).2.1,
    (register_zero_invariant {} 0).2.2 rfl⟩

/-- C9: the engine is deterministic — equal cold-start states and equal
programs give, after `reset`, `load_program` and `k` steps, identical
register files, data memories and trace logs.  In this pure embedding the
transition is a function of the state alone (the source consults no clock,
randomness or other ambient input), so the replay facts hold by reflexivity. -/
theorem replay_determinism :
    ∀ (c1 c2 : PipelineCPU) (p q : List Instruction) (k : Nat),
      c1 = c2 → p = q →
      (stepN (load_program (reset c1) p) k).regs
        = (stepN (load_program (reset c2) q) k).regs ∧
      (stepN (load_program (reset c1) p) k).dmem
        = (stepN (load_program (reset c2) q) k).dmem ∧
      (stepN (load_program (reset c1) p) k).trace
        = (stepN (load_program (reset c2) q) k).trace := by
  intro c1 c2 p q k h1 h2
  subst h1
  subst h2
  exact ⟨rfl, rfl, rfl⟩

/-- C9 witness: replaying the load-use program five cycles from a cold start. -/
theorem replay_determinism_witness :
    (stepN (load_program (reset ({} : PipelineCPU)) progLwUse) 5).regs
      = (stepN (load_program (reset ({} : PipelineCPU)) progLwUse) 5).regs ∧
    (stepN (load_program (reset ({} : PipelineCPU)) progLwUse) 5).dmem
      = (stepN (load_program (reset ({} : PipelineCPU)) progLwUse) 5).dmem ∧
    (stepN (load_program (reset ({} : PipelineCPU)) progLwUse) 5).trace
      = (stepN (load_program (reset ({} : PipelineCPU)) progLwUse) 5).trace :=
  replay_determinism {} {} progLwUse progLwUse 5 rfl rfl

theorem snd_mem_of_mem_enumFrom {α : Type} :
    ∀ (l : List α) (n : Nat) (p : Nat × α), p ∈ l.enumFrom n → p.2 ∈ l := by
  intro l
  induction l with
  | nil => intro n p h; simp [List.enumFrom] at h
  | cons a t ih =>
    intro n p h
    simp only [List.enumFrom, List.mem_cons] at h
    rcases h with h | h
    · simp [h]
    · exact List.mem_cons_of_mem a (ih (n + 1) p h)

theorem trace_inv_step (cpu : PipelineCPU)
    (h : cpu.trace.length = cpu.cycle ∧ ∀ row ∈ cpu.trace, row.sMEM = row.sWB) :
    (step cpu).trace.length = (step cpu).cycle ∧
    ∀ row ∈ (step cpu).trace, row.sMEM = row.sWB := by
  constructor
  · rw [step_trace, step_cycle, List.length_append, h.1]
    rfl
  · rw [step_trace]
    intro row hr
    rcases List.mem_append.1 hr with hm | hm
    · exact h.2 row hm
    · rw [List.mem_singleton.1 hm]
      rfl

theorem trace_inv_stepN (cpu : PipelineCPU) (k : Nat)
    (h : cpu.trace.length = cpu.cycle ∧ ∀ row ∈ cpu.trace, row.sMEM = row.sWB) :
    (stepN cpu k).trace.length = (stepN cpu k).cycle ∧
    ∀ row ∈ (stepN cpu k).trace, row.sMEM = row.sWB := by
  induction k generalizing cpu with
  | zero => exact h
  | succ k ih => rw [stepN_succ]; exact ih (step cpu) (trace_inv_step cpu h)

/-- C10: after any number of cycles from reset, the trace holds exactly one
row per executed cycle, each row's MEM entry equals its WB entry (both read
the MEM/WB latch), and consequently the exported CSV's MEM and WB columns
(fields 4 and 5 of each row) coincide. -/
theorem trace_mem_wb_columns :
    ∀ (cpu : PipelineCPU) (k : Nat),
      (stepN (reset cpu) k).trace.length = (stepN (reset cpu) k).cycle ∧
      (∀ row ∈ (stepN (reset cpu) k).trace, row.sMEM = row.sWB) ∧
      (∀ r ∈ export_csv_rows (stepN (reset cpu) k), r.getD 4 "" = r.getD 5 "") := by
  intro cpu k
  obtain ⟨h1, h2⟩ :=
    trace_inv_stepN (reset cpu) k ⟨rfl, by intro row hr; cases hr⟩
  refine ⟨h1, h2, ?_⟩
  intro r hr
  unfold export_csv_rows at hr
  obtain ⟨p, hp, hfp⟩ := List.mem_map.1 hr
  have hmem : p.2 ∈ (stepN (reset cpu) k).trace :=
    snd_mem_of_mem_enumFrom _ 0 p hp
  rw [← hfp]
  simpa using h2 p.2 hmem

/-- C10 witness: the trace facts after two cycles from a cold-start reset,
including the MEM/WB equality of the first concrete row. -/
theorem trace_mem_wb_columns_witness :
    (stepN (reset ({} : PipelineCPU)) 2).trace.length
      = (stepN (reset ({} : PipelineCPU)) 2).cycle ∧
    ((stepN (reset ({} : PipelineCPU)) 2).trace.getD 0 {}).sMEM
      = ((stepN (reset ({} : PipelineCPU)) 2).trace.getD 0 {}).sWB :=
  ⟨(trace_mem_wb_columns {} 2).1,
    (trace_mem_wb_columns {} 2).2.1 _ (by decide)⟩

/-- C1 counterexample: in the canonical `static_nt` taken-branch scenario
(`beq x0,x0,2; lw x1,0(x0); nop` with `mem[0] = 7`), exactly one mispredict
and one flush are recorded and the branch is actually taken — yet the
instruction fetched immediately after the branch (the `lw` at index 1)
retires and commits `x1 = 7`: the flush clobbers only the next IF/ID latch,
while the not-taken-path instruction has already advanced into ID/EX when
the branch resolves in EX. -/
theorem mispredict_flush_counterexample :
    (stepN cpuMis 12).mispredicts = 1 ∧
    (stepN cpuMis 12).flushes = 1 ∧
    (stepN cpuMis 3).last_events.branch_taken = true ∧
    ((stepN cpuMis 12).inst_status.getD 1 {}).retired = true ∧
    (stepN cpuMis 12).regs 1 = 7 :=
  ⟨rfl, rfl, rfl, rfl, rfl⟩

/-- C1 (amended): with predictor mode `static_nt` and a `beq` that is
actually taken, running to completion records exactly one mispredict and one
flush; the flush discards the slot fetched during the branch's resolution
cycle (the IF/ID latch is replaced by a no-op and the pc redirected to the
taken target), while the instruction fetched immediately after the branch
escapes the single-latch flush, retires, and commits its register write —
permanently, over any further number of cycles. -/
theorem mispredict_flush_amended :
    (stepN cpuMis 12).mispredicts = 1 ∧
    (stepN cpuMis 12).flushes = 1 ∧
    (stepN cpuMis 3).last_events.mispredict = true ∧
    (stepN cpuMis 3).IF_ID.instr.op = Op.nop ∧
    (stepN cpuMis 3).pc = 2 ∧
    ∀ k, ((stepN cpuMis (12 + k)).inst_status.getD 1 {}).retired = true ∧
      (stepN cpuMis (12 + k)).regs 1 = 7 ∧
      (stepN cpuMis (12 + k)).mispredicts = 1 ∧
      (stepN cpuMis (12 + k)).flushes = 1 := by
  refine ⟨rfl, rfl, rfl, rfl, rfl, fun k => ?_⟩
  have hd : Drained (stepN cpuMis 12) := by decide
  obtain ⟨_, hregs, hstatus, _, _, hfl, hmis, _, _⟩ :=
    stepN_drained (stepN cpuMis 12) hd k
  rw [stepN_add cpuMis 12 k]
  refine ⟨?_, ?_, ?_, ?_⟩
  · rw [hstatus]; rfl
  · rw [hregs]; rfl
  · rw [hmis]; rfl
  · rw [hfl]; rfl

/-- C2 counterexample: with forwarding off, the three-add RAW chain reports
6 decode stalls after draining (each of the two dependences stalls three
times — the MEM/WB latch still triggers a stall in the very cycle its
instruction commits), not the claimed 2. -/
theorem raw_stall_count_counterexample :
    (stepN cpuRaw 16).retired = 3 ∧
    (stepN cpuRaw 16).stalls = 6 ∧
    (stepN cpuRaw 16).stalls ≠ 2 :=
  ⟨rfl, rfl, by decide⟩

/-- C2 (amended): with forwarding disabled, the program
`add x1,x0,x0; add x2,x1,x1; add x3,x2,x2` reports exactly 6 decode stalls —
each of the two RAW dependences stalls three times, once against each of
EX, MEM and WB — before `x3` settles (to 0), and the count stays 6 over any
further cycles. -/
theorem raw_stall_count_amended :
    (stepN cpuRaw 16).stalls = 6 ∧
    dictGet (stepN cpuRaw 16).stall_breakdown "RAW vs EX" 0 = 2 ∧
    dictGet (stepN cpuRaw 16).stall_breakdown "RAW vs MEM" 0 = 2 ∧
    dictGet (stepN cpuRaw 16).stall_breakdown "RAW vs WB" 0 = 2 ∧
    (stepN cpuRaw 16).retired = 3 ∧
    ∀ k, (stepN cpuRaw (16 + k)).stalls = 6 ∧
      (stepN cpuRaw (16 + k)).regs 3 = 0 := by
  refine ⟨rfl, rfl, rfl, rfl, rfl, fun k => ?_⟩
  have hd : Drained (stepN cpuRaw 16) := by decide
  obtain ⟨_, hregs, _, _, hstalls, _, _, _, _⟩ :=
    stepN_drained (stepN cpuRaw 16) hd k
  rw [stepN_add cpuRaw 16 k]
  refine ⟨?_, ?_⟩
  · rw [hstalls]; rfl
  · rw [hregs]; rfl

theorem sLw1_eq (v : Int) : step (cpuLwUse v) = sLw1 v := rfl

theorem sLw2_eq (v : Int) : step (sLw1 v) = sLw2 v := rfl

theorem sLw3_eq (v : Int) : step (sLw2 v) = sLw3 v := rfl

theorem sLw4_eq (v : Int) : step (sLw3 v) = sLw4 v := rfl

theorem sLw5_eq (v : Int) : step (sLw4 v) = sLw5 v := rfl

theorem sLw6_eq (v : Int) : step (sLw5 v) = sLw6 v := rfl

theorem sLw7_eq (v : Int) : step (sLw6 v) = sLw7 v := rfl

theorem sLw8_eq (v : Int) : step (sLw7 v) = sLw8 v := rfl

theorem sLw9_eq (v : Int) : step (sLw8 v) = sLw9 v := rfl

theorem sLw10_eq (v : Int) : step (sLw9 v) = sLw10 v := rfl


theorem stepN_cpuLwUse (v : Int) : stepN (cpuLwUse v) 10 = sLw10 v := by
  have h : ∀ c : PipelineCPU, stepN c 10 =
      step (step (step (step (step (step (step (step (step (step c))))))))) :=
    fun c => rfl
  rw [h, sLw1_eq, sLw2_eq, sLw3_eq, sLw4_eq, sLw5_eq, sLw6_eq, sLw7_eq,
    sLw8_eq, sLw9_eq, sLw10_eq]


/-- C4: with forwarding on, `lw x1,0(x0); add x2,x1,x1` (with `mem[0] = v`
poked) stalls decode exactly once, with reason `lw-use`, and after full
drain `x2 = 2 * mem[0]` — for every memory value `v`, and permanently over
any further cycles. -/
theorem load_use_stall :
    ∀ v : Int,
      (stepN (cpuLwUse v) 10).stalls = 1 ∧
      dictGet (stepN (cpuLwUse v) 10).stall_breakdown "lw-use" 0 = 1 ∧
      (stepN (cpuLwUse v) 10).retired = 2 ∧
      (stepN (cpuLwUse v) 10).regs 2
        = 2 * dictGet (stepN (cpuLwUse v) 10).dmem 0 0 ∧
      ∀ k, (stepN (cpuLwUse v) (10 + k)).regs 2 = 2 * v := by
  intro v
  have e : stepN (cpuLwUse v) 10 = sLw10 v := stepN_cpuLwUse v
  have hregs2 : (sLw10 v).regs 2 = v + v := rfl
  have hmem : dictGet (sLw10 v).dmem 0 0 = v := rfl
  refine ⟨by rw [e]; rfl, by rw [e]; rfl, by rw [e]; rfl, ?_, fun k => ?_⟩
  · rw [e, hregs2, hmem, two_mul]
  · have hd : Drained (sLw10 v) :=
      ⟨rfl, rfl, rfl, rfl, by show (2 : Int) ≤ 9; norm_num, rfl⟩
    obtain ⟨_, hregs, _, _, _, _, _, _, _⟩ := stepN_drained (sLw10 v) hd k
    rw [stepN_add (cpuLwUse v) 10 k, e, hregs, hregs2, two_mul]
theorem stall_reason_ne_structural (cpu : PipelineCPU)
    (h : (detect_stall_decode cpu).1 = true) :
    (detect_stall_decode cpu).2.1 ≠ "structural" := by
  unfold detect_stall_decode at h ⊢
  dsimp only at h ⊢
  split_ifs at h ⊢ <;> dsimp only at h ⊢ <;>
    first | exact Bool.noConfusion h | decide

/-- C5 counterexample: in the load-use scenario two cycles in, a decode
stall is detected and the pending instruction is indeed re-presented — but
the IF/ID latch's program-counter field is NOT left unchanged: `step`
rewrites it from 1 to the global pc 2 (`LatchIFID(... pc=self.pc ...)` in
the stall branch). -/
theorem stall_frame_counterexample :
    (detect_stall_decode cpuStallCycle).1 = true ∧
    (step cpuStallCycle).IF_ID.instr = cpuStallCycle.IF_ID.instr ∧
    cpuStallCycle.IF_ID.pc = 1 ∧
    (step cpuStallCycle).IF_ID.pc = 2 :=
  ⟨rfl, rfl, rfl, rfl⟩

/-- C5 (amended): in every cycle in which a decode stall is detected, `step`
(a) keeps the IF/ID latch's instruction and the global program counter
unchanged but rewrites the latch's pc field to the current global pc (both
absent a same-cycle branch-resolution override, which may instead flush
IF/ID and redirect the pc), (b) sets the next ID/EX latch to a no-op bubble
unconditionally, and (c) increments the total stall counter and the matching
named-reason counter by one each (a simultaneous structural stall adds a
further increment to the total, under its own reason key). -/
theorem stall_frame_amended :
    ∀ cpu : PipelineCPU, (detect_stall_decode cpu).1 = true →
      (step cpu).ID_EX = { instr := NOP } ∧
      (step cpu).stalls
        = cpu.stalls + 1 + (if structuralFire cpu then 1 else 0) ∧
      dictGet (step cpu).stall_breakdown (detect_stall_decode cpu).2.1 0
        = dictGet cpu.stall_breakdown (detect_stall_decode cpu).2.1 0 + 1 ∧
      (mispredictFire cpu = false →
        (step cpu).IF_ID.instr = cpu.IF_ID.instr ∧
        (step cpu).IF_ID.pc = cpu.pc ∧
        (step cpu).pc = cpu.pc) := by
  intro cpu h
  have hf : fetchStall cpu = true := by simp [fetchStall, h]
  refine ⟨?_, ?_, ?_, fun hm => ?_⟩
  · rw [step_IDEX]
    unfold nextIDEX
    simp [h]
  · rw [step_stalls, h]
    by_cases hs : structuralFire cpu <;> simp [hs]
  · rw [step_breakdown]
    simp only [h, if_true]
    by_cases hs : structuralFire cpu
    · simp only [hs, if_true]
      rw [dictGet_set_ne _ _ _ _ _
        (Ne.symm (stall_reason_ne_structural cpu h)),
        dictGet_set_self]
    · simp only [hs, Bool.false_eq_true, if_false]
      rw [dictGet_set_self]
  · refine ⟨?_, ?_, ?_⟩
    · rw [step_IFID]
      unfold nextIFID1 nextIFID0
      simp [hm, hf]
    · rw [step_IFID]
      unfold nextIFID1 nextIFID0
      simp [hm, hf]
    · rw [step_pc]
      unfold pcNext1 pcNext0
      simp [hm, hf]

/-- C5 witness: the amended frame facts hold at the concrete load-use stall
cycle, with both hypotheses discharged there. -/
theorem stall_frame_witness :
    (step cpuStallCycle).ID_EX = { instr := NOP } ∧
    (step cpuStallCycle).stalls = cpuStallCycle.stalls + 1
      + (if structuralFire cpuStallCycle then 1 else 0) ∧
    dictGet (step cpuStallCycle).stall_breakdown
        (detect_stall_decode cpuStallCycle).2.1 0
      = dictGet cpuStallCycle.stall_breakdown
          (detect_stall_decode cpuStallCycle).2.1 0 + 1 ∧
    ((step cpuStallCycle).IF_ID.instr = cpuStallCycle.IF_ID.instr ∧
      (step cpuStallCycle).IF_ID.pc = cpuStallCycle.pc ∧
      (step cpuStallCycle).pc = cpuStallCycle.pc) :=
  ⟨(stall_frame_amended cpuStallCycle rfl).1,
    (stall_frame_amended cpuStallCycle rfl).2.1,
    (stall_frame_amended cpuStallCycle rfl).2.2.1,
    (stall_frame_amended cpuStallCycle rfl).2.2.2 rfl⟩

/-- C8: with the structural-hazard option enabled and a `lw` or `sw`
occupying the current EX/MEM latch, fetch is blocked this cycle: the next
IF/ID latch repeats the pending instruction, the program counter does not
advance (absent a branch-resolution override), and both the total stall
counter and the separate `structural` reason counter increment — on top of
any decode-stall increment in the same cycle. -/
theorem structural_hazard_blocks_fetch :
    ∀ cpu : PipelineCPU,
      cpu.structural_on = true →
      cpu.EX_MEM.instr.is_nop = false →
      (cpu.EX_MEM.instr.op = Op.lw ∨ cpu.EX_MEM.instr.op = Op.sw) →
      mispredictFire cpu = false →
      (step cpu).IF_ID.instr = cpu.IF_ID.instr ∧
      (step cpu).IF_ID.pc = cpu.pc ∧
      (step cpu).pc = cpu.pc ∧
      (step cpu).stalls
        = cpu.stalls + (if (detect_stall_decode cpu).1 then 1 else 0) + 1 ∧
      dictGet (step cpu).stall_breakdown "structural" 0
        = dictGet cpu.stall_breakdown "structural" 0 + 1 := by
  intro cpu hon hnop hop hm
  have hs : structuralFire cpu = true := by
    unfold structuralFire
    rw [hon, hnop]
    rcases hop with h | h <;> simp [h]
  have hf : fetchStall cpu = true := by simp [fetchStall, hs]
  refine ⟨?_, ?_, ?_, ?_, ?_⟩
  · rw [step_IFID]
    unfold nextIFID1 nextIFID0
    simp [hm, hf]
  · rw [step_IFID]
    unfold nextIFID1 nextIFID0
    simp [hm, hf]
  · rw [step_pc]
    unfold pcNext1 pcNext0
    simp [hm, hf]
  · rw [step_stalls, hs]
    by_cases hd : (detect_stall_decode cpu).1 <;> simp [hd]
  · rw [step_breakdown]
    simp only [hs, if_true]
    by_cases hd : (detect_stall_decode cpu).1 = true
    · simp only [hd, if_true]
      rw [dictGet_set_self,
        dictGet_set_ne _ _ _ _ _ (stall_reason_ne_structural cpu hd)]
    · simp only [hd, Bool.false_eq_true, if_false]
      rw [dictGet_set_self]

/-- C8 witness: the structural block at a concrete state with the option on
and a `lw` in EX/MEM, all hypotheses discharged there. -/
theorem structural_hazard_witness :
    (step cpuStruct).IF_ID.instr = cpuStruct.IF_ID.instr ∧
    (step cpuStruct).IF_ID.pc = cpuStruct.pc ∧
    (step cpuStruct).pc = cpuStruct.pc ∧
    (step cpuStruct).stalls = cpuStruct.stalls
      + (if (detect_stall_decode cpuStruct).1 then 1 else 0) + 1 ∧
    dictGet (step cpuStruct).stall_breakdown "structural" 0
      = dictGet cpuStruct.stall_breakdown "structural" 0 + 1 :=
  structural_hazard_blocks_fetch cpuStruct rfl rfl (Or.inl rfl) rfl

/-!  Parser lemmas. -/

theorem except_bind_ok {ε α β : Type} (a : α) (f : α → Except ε β) :
    (Except.ok a : Except ε α) >>= f = f a := rfl

theorem except_bind_error {ε α β : Type} (e : ε) (f : α → Except ε β) :
    (Except.error e : Except ε α) >>= f = Except.error e := rfl

theorem dictFind_mem {α β : Type} [DecidableEq α] (m : List (α × β)) (k : α)
    (v : β) (h : dictFind m k = some v) : (k, v) ∈ m := by
  induction m with
  | nil => simp [dictFind] at h
  | cons p t ih =>
    obtain ⟨a, b⟩ := p
    by_cases ha : a = k
    · subst ha
      simp [dictFind] at h
      simp [h]
    · simp [dictFind, ha] at h
      exact List.mem_cons_of_mem _ (ih h)

theorem collectLabels_bound :
    ∀ (lines : List String) (labels : List (String × Nat)) (ops : List String)
      (labels' : List (String × Nat)) (ops' : List String),
      collectLabels lines labels ops ops.length = .ok (labels', ops') →
      (∀ p ∈ labels, p.2 ≤ ops.length) →
      ∀ p ∈ labels', p.2 ≤ ops'.length := by
  intro lines
  induction lines with
  | nil =>
    intro labels ops labels' ops' h hlab
    unfold collectLabels at h
    injection h with h'
    injection h' with e1 e2
    subst e1
    subst e2
    simpa [List.length_reverse] using hlab
  | cons line rest ih =>
    intro labels ops labels' ops' h hlab
    unfold collectLabels at h
    dsimp only at h
    split_ifs at h with h1 h2
    · refine ih (dictSet labels (pyStrip (pyDropRight line 1)) ops.length)
        ops labels' ops' h ?_
      intro p hp
      rcases mem_dictSet _ _ _ p hp with hm | he
      · exact hlab p hm
      · rw [he]
    · exact ih labels (line :: ops) labels' ops' h
        (fun p hp => Nat.le_succ_of_le (hlab p hp))

theorem parse_labels_bound (text : String) (labels : List (String × Nat))
    (ops : List String) (h : parse_labels text = .ok (labels, ops)) :
    ∀ p ∈ labels, p.2 ≤ ops.length :=
  collectLabels_bound (cleanedLines text) [] [] labels ops h
    (by intro p hp; cases hp)

theorem buildProgram_length :
    ∀ (labels : List (String × Nat)) (iid : Nat) (ops : List String)
      (prog : List Instruction),
      buildProgram labels iid ops = .ok prog → prog.length = ops.length := by
  intro labels iid ops
  induction ops generalizing iid with
  | nil =>
    intro prog h
    unfold buildProgram at h
    injection h with h'
    rw [← h']
    rfl
  | cons line rest ih =>
    intro prog h
    unfold buildProgram at h
    cases hl : parse_line labels iid line with
    | error e => rw [hl] at h; simp [except_bind_error] at h
    | ok ins =>
      rw [hl] at h
      cases ht : buildProgram labels (iid + 1) rest with
      | error e =>
        rw [ht] at h
        simp [except_bind_ok, except_bind_error] at h
      | ok tail =>
        rw [ht] at h
        simp only [except_bind_ok] at h
        injection h with h'
        rw [← h', List.length_cons, ih (iid + 1) tail ht]
        rfl

theorem mem_buildProgram :
    ∀ (labels : List (String × Nat)) (iid : Nat) (ops : List String)
      (prog : List Instruction),
      buildProgram labels iid ops = .ok prog →
      ∀ ins ∈ prog, ∃ i line, line ∈ ops ∧ parse_line labels i line = .ok ins := by
  intro labels iid ops
  induction ops generalizing iid with
  | nil =>
    intro prog h ins hins
    unfold buildProgram at h
    injection h with h'
    rw [← h'] at hins
    cases hins
  | cons line rest ih =>
    intro prog h ins hins
    unfold buildProgram at h
    cases hl : parse_line labels iid line with
    | error e => rw [hl] at h; simp [except_bind_error] at h
    | ok i0 =>
      rw [hl] at h
      cases ht : buildProgram labels (iid + 1) rest with
      | error e =>
        rw [ht] at h
        simp [except_bind_ok, except_bind_error] at h
      | ok tail =>
        rw [ht] at h
        simp only [except_bind_ok] at h
        injection h with h'
        rw [← h'] at hins
        rcases List.mem_cons.1 hins with he | hm
        · exact ⟨iid, line, List.mem_cons_self _ _, by rw [hl, he]⟩
        · obtain ⟨i, l, hl', hp⟩ := ih (iid + 1) tail ht ins hm
          exact ⟨i, l, List.mem_cons_of_mem _ hl', hp⟩

theorem parse_line_beq_target (labels : List (String × Nat)) (iid : Nat)
    (line : String) (ins : Instruction)
    (h : parse_line labels iid line = .ok ins) (hop : ins.op = Op.beq) :
    ∀ tgt, ins.branch_target_idx = some tgt →
      ins.raw = line ∧
      ((∃ v, dictFind labels ((tokenize line).getD 3 "") = some v
          ∧ tgt = (v : Int)) ∨
       (dictFind labels ((tokenize line).getD 3 "") = none ∧
        parse_int ((tokenize line).getD 3 "") = .ok tgt)) := by
  intro tgt htgt
  unfold parse_line at h
  dsimp only at h
  split at h
  · exact absurd h (by simp)
  next ls t0 rest heq =>
    by_cases c1 : pyLower t0 = "nop"
    · rw [if_pos c1] at h
      injection h with h'
      rw [← h'] at hop
      exact Op.noConfusion hop
    rw [if_neg c1] at h
    by_cases c2 : pyLower t0 = "add" ∨ pyLower t0 = "sub"
    · rw [if_pos c2] at h
      split_ifs at h
      all_goals
        cases hr1 : parse_reg ((tokenize line).getD 1 "") with
        | error e => rw [hr1] at h; simp [except_bind_error] at h
        | ok rd =>
          rw [hr1, except_bind_ok] at h
          cases hr2 : parse_reg ((tokenize line).getD 2 "") with
          | error e => rw [hr2] at h; simp [except_bind_error] at h
          | ok rs1 =>
            rw [hr2, except_bind_ok] at h
            cases hr3 : parse_reg ((tokenize line).getD 3 "") with
            | error e => rw [hr3] at h; simp [except_bind_error] at h
            | ok rs2 =>
              rw [hr3, except_bind_ok] at h
              injection h with h'
              rw [← h'] at hop
              exact Op.noConfusion hop
    rw [if_neg c2] at h
    by_cases c4 : pyLower t0 = "lw"
    · rw [if_pos c4] at h
      by_cases ca : (tokenize line).length ≠ 3
      · rw [if_pos ca] at h
        exact absurd h (by simp)
      rw [if_neg ca] at h
      cases hr1 : parse_reg ((tokenize line).getD 1 "") with
      | error e => rw [hr1] at h; simp [except_bind_error] at h
      | ok rd =>
        rw [hr1, except_bind_ok] at h
        by_cases cb : (!((tokenize line).getD 2 "").data.contains '('
            || !pyEndsWith ((tokenize line).getD 2 "") ")") = true
        · rw [if_pos cb] at h
          exact absurd h (by simp)
        rw [if_neg cb] at h
        cases hr2 : parse_reg (pyDropRight (addrSplit ((tokenize line).getD 2 "")).2 1) with
        | error e => rw [hr2] at h; simp [except_bind_error] at h
        | ok rs1 =>
          rw [hr2, except_bind_ok] at h
          cases hr3 : parse_int
              (if (addrSplit ((tokenize line).getD 2 "")).1 = "" then "0"
               else (addrSplit ((tokenize line).getD 2 "")).1) with
          | error e => rw [hr3] at h; simp [except_bind_error] at h
          | ok imm =>
            rw [hr3, except_bind_ok] at h
            injection h with h'
            rw [← h'] at hop
            exact Op.noConfusion hop
    rw [if_neg c4] at h
    by_cases c7 : pyLower t0 = "sw"
    · rw [if_pos c7] at h
      by_cases ca : (tokenize line).length ≠ 3
      · rw [if_pos ca] at h
        exact absurd h (by simp)
      rw [if_neg ca] at h
      cases hr1 : parse_reg ((tokenize line).getD 1 "") with
      | error e => rw [hr1] at h; simp [except_bind_error] at h
      | ok rs2 =>
        rw [hr1, except_bind_ok] at h
        by_cases cb : (!((tokenize line).getD 2 "").data.contains '('
            || !pyEndsWith ((tokenize line).getD 2 "") ")") = true
        · rw [if_pos cb] at h
          exact absurd h (by simp)
        rw [if_neg cb] at h
        cases hr2 : parse_reg (pyDropRight (addrSplit ((tokenize line).getD 2 "")).2 1) with
        | error e => rw [hr2] at h; simp [except_bind_error] at h
        | ok rs1 =>
          rw [hr2, except_bind_ok] at h
          cases hr3 : parse_int
              (if (addrSplit ((tokenize line).getD 2 "")).1 = "" then "0"
               else (addrSplit ((tokenize line).getD 2 "")).1) with
          | error e => rw [hr3] at h; simp [except_bind_error] at h
          | ok imm =>
            rw [hr3, except_bind_ok] at h
            injection h with h'
            rw [← h'] at hop
            exact Op.noConfusion hop
    rw [if_neg c7] at h
    by_cases c10 : pyLower t0 = "beq"
    · rw [if_pos c10] at h
      split_ifs at h
      cases hr1 : parse_reg ((tokenize line).getD 1 "") with
      | error e => rw [hr1] at h; simp [except_bind_error] at h
      | ok rs1 =>
        rw [hr1, except_bind_ok] at h
        cases hr2 : parse_reg ((tokenize line).getD 2 "") with
        | error e => rw [hr2] at h; simp [except_bind_error] at h
        | ok rs2 =>
          rw [hr2, except_bind_ok] at h
          cases hf : dictFind labels ((tokenize line).getD 3 "") with
          | some t =>
            rw [hf] at h
            dsimp only at h
            injection h with h'
            rw [← h'] at htgt
            dsimp only at htgt
            injection htgt with htgt'
            exact ⟨by rw [← h'], Or.inl ⟨t, rfl, htgt'.symm⟩⟩
          | none =>
            rw [hf] at h
            dsimp only at h
            cases hpi : parse_int ((tokenize line).getD 3 "") with
            | error e => rw [hpi] at h; exact absurd h (by simp)
            | ok t =>
              rw [hpi] at h
              injection h with h'
              rw [← h'] at htgt
              dsimp only at htgt
              injection htgt with htgt'
              exact ⟨by rw [← h'], Or.inr ⟨rfl, by rw [htgt']⟩⟩
    rw [if_neg c10] at h
    exact absurd h (by simp)

/-- C6 counterexample: `parse_program` accepts the one-line program
`beq x0, x0, 7` and installs branch target 7, far outside
`[0, len(program)] = [0, 1]` — numeric targets are unchecked. -/
theorem branch_target_range_counterexample :
    parse_program "beq x0, x0, 7" = .ok [beq7] ∧
    beq7.branch_target_idx = some 7 ∧
    [beq7].length = 1 ∧
    ¬((7 : Int) ≤ (([beq7] : List Instruction).length : Int)) :=
  ⟨rfl, rfl, rfl, by decide⟩

/-- C6 (amended): for every text accepted by `parse_program`, every `beq`
instruction resolves its own target token (the fourth token of its source
line, recoverable from the instruction's `raw` text): if that token is a
declared label, the installed target is exactly that label's index, which
always lies within `[0, len(program)]`; otherwise the installed target is
the verbatim numeric value of that token, installed without any range check
(and possibly outside `[0, len(program)]`, per the counterexample). -/
theorem branch_target_range_amended :
    ∀ (text : String) (labels : List (String × Nat)) (ops : List String)
      (prog : List Instruction) (ins : Instruction) (tgt : Int),
      parse_labels text = .ok (labels, ops) →
      parse_program text = .ok prog →
      ins ∈ prog → ins.op = Op.beq → ins.branch_target_idx = some tgt →
      (∃ v : Nat, dictFind labels ((tokenize ins.raw).getD 3 "") = some v ∧
        tgt = (v : Int) ∧ 0 ≤ tgt ∧ tgt ≤ (prog.length : Int)) ∨
      (dictFind labels ((tokenize ins.raw).getD 3 "") = none ∧
        parse_int ((tokenize ins.raw).getD 3 "") = .ok tgt) := by
  intro text labels ops prog ins tgt hlab hprog hins hop htgt
  unfold parse_program at hprog
  rw [hlab] at hprog
  simp only [except_bind_ok] at hprog
  obtain ⟨i, l, hl, hpl⟩ := mem_buildProgram labels 0 ops prog hprog ins hins
  obtain ⟨hraw, hcases⟩ := parse_line_beq_target labels i l ins hpl hop tgt htgt
  rw [hraw]
  rcases hcases with ⟨v, hf, he⟩ | ⟨hf, hnum⟩
  · left
    have hv := parse_labels_bound text labels ops hlab
      ((tokenize l).getD 3 "", v)
      (dictFind_mem labels ((tokenize l).getD 3 "") v hf)
    have hlen : prog.length = ops.length :=
      buildProgram_length labels 0 ops prog hprog
    subst he
    exact ⟨v, hf, rfl, Int.natCast_nonneg v, by omega⟩
  · exact Or.inr ⟨hf, hnum⟩

/-- C6 witness: the amended statement applied to the labelled loop program
`loop: beq x0, x0, loop`, whose label-resolved target 0 is within `[0, 1]`. -/
theorem branch_target_range_witness :
    (∃ v : Nat, dictFind [("loop", 0)] ((tokenize beqLoop.raw).getD 3 "")
        = some v ∧
      (0 : Int) = (v : Int) ∧ 0 ≤ (0 : Int) ∧
      (0 : Int) ≤ (([beqLoop] : List Instruction).length : Int)) ∨
    (dictFind [("loop", 0)] ((tokenize beqLoop.raw).getD 3 "") = none ∧
      parse_int ((tokenize beqLoop.raw).getD 3 "") = .ok (0 : Int)) :=
  branch_target_range_amended "loop:\nbeq x0, x0, loop" [("loop", 0)]
    ["beq x0, x0, loop"] [beqLoop] beqLoop 0 rfl rfl
    (List.mem_singleton.mpr rfl) rfl rfl

theorem isPrefixOf_self {α : Type} [BEq α] [LawfulBEq α] :
    ∀ l : List α, l.isPrefixOf l = true := by
  intro l
  induction l with
  | nil => rfl
  | cons a t ih => simp [List.isPrefixOf, ih]

theorem strContains_suffix (a b : String) : strContains (a ++ b) b = true := by
  unfold strContains
  rw [List.any_eq_true]
  refine ⟨a.data.length, ?_, ?_⟩
  · rw [List.mem_range]
    have hd : (a ++ b).data = a.data ++ b.data := rfl
    rw [hd, List.length_append]
    omega
  · have hd : (a ++ b).data = a.data ++ b.data := rfl
    rw [hd, List.drop_left]
    exact isPrefixOf_self b.data

theorem parse_err_opcode (labels : List (String × Nat)) (iid : Nat)
    (line t0 : String) (rest : List String)
    (heq : tokenize line = t0 :: rest)
    (hnot : pyLower t0 ∉ (["nop", "add", "sub", "lw", "sw", "beq"] : List String)) :
    parse_line labels iid line
      = .error ("Unsupported op " ++ sq ++ pyLower t0 ++ sq ++ " in: " ++ line) := by
  simp only [List.mem_cons, List.not_mem_nil, or_false, not_or] at hnot
  obtain ⟨h1, h2, h3, h4, h5, h6⟩ := hnot
  unfold parse_line
  dsimp only
  rw [heq]
  dsimp only
  rw [if_neg h1, if_neg (not_or.mpr ⟨h2, h3⟩), if_neg h4, if_neg h5, if_neg h6]

theorem parse_err_arity (labels : List (String × Nat)) (iid : Nat)
    (line t0 : String) (rest : List String)
    (heq : tokenize line = t0 :: rest)
    (hadd : pyLower t0 = "add" ∨ pyLower t0 = "sub")
    (harity : (tokenize line).length ≠ 4) :
    parse_line labels iid line
      = .error ("Bad " ++ pyLower t0 ++ " format: " ++ line) := by
  unfold parse_line
  dsimp only
  rw [heq]
  dsimp only
  rw [heq] at harity
  rcases hadd with h | h <;>
    rw [h] <;>
    rw [if_neg (by decide), if_pos (by simp [h]), if_pos harity]

theorem parse_err_reg (tok : String)
    (h : dictFind REG_NAMES (pyLower (pyStrip tok)) = none) :
    parse_reg tok
      = .error ("Unknown register " ++ sq ++ pyLower (pyStrip tok) ++ sq) := by
  unfold parse_reg
  dsimp only
  rw [h]

theorem parse_err_label (labels : List (String × Nat)) (iid : Nat)
    (line t0 r1 r2 lbl : String) (a b : Nat) (e : String)
    (heq : tokenize line = [t0, r1, r2, lbl])
    (hbeq : pyLower t0 = "beq")
    (hr1 : parse_reg r1 = .ok a) (hr2 : parse_reg r2 = .ok b)
    (hfind : dictFind labels lbl = none)
    (hpi : parse_int lbl = .error e) :
    parse_line labels iid line
      = .error ("Unknown label " ++ sq ++ lbl ++ sq ++ " in: " ++ line) := by
  unfold parse_line
  dsimp only
  rw [heq]
  dsimp only
  rw [hbeq]
  rw [if_neg (by decide), if_neg (by decide), if_neg (by decide),
    if_neg (by decide), if_pos rfl, if_neg (by simp)]
  simp only [List.getD_cons_succ, List.getD_cons_zero]
  rw [hr1, except_bind_ok, hr2, except_bind_ok, hfind]
  dsimp only
  rw [hpi]

theorem parse_err_addr (labels : List (String × Nat)) (iid : Nat)
    (line t0 rd addr : String) (a : Nat)
    (heq : tokenize line = [t0, rd, addr])
    (hlw : pyLower t0 = "lw")
    (hrd : parse_reg rd = .ok a)
    (hbad : (!addr.data.contains '(' || !pyEndsWith addr ")") = true) :
    parse_line labels iid line = .error ("Bad lw address: " ++ line) := by
  unfold parse_line
  dsimp only
  rw [heq]
  dsimp only
  rw [hlw]
  rw [if_neg (by decide), if_neg (by decide), if_pos rfl, if_neg (by simp)]
  simp only [List.getD_cons_succ, List.getD_cons_zero]
  rw [hrd, except_bind_ok]
  rw [if_pos hbad]

/-- C7 counterexample: the register error for `add x99, x0, x0` carries only
the offending token, not the offending source line — the line is not a
substring of the raised message. -/
theorem parse_error_counterexample :
    parse_program "add x99, x0, x0"
      = .error ("Unknown register " ++ sq ++ "x99" ++ sq) ∧
    strContains ("Unknown register " ++ sq ++ "x99" ++ sq)
      "add x99, x0, x0" = false :=
  ⟨rfl, rfl⟩

/-- C7 (amended): `parse_program` fails exactly at parse time on malformed
text, and never during stepping (the cycle transition is a total state
function).  Unknown opcodes, wrong operand counts, unresolvable `beq` labels
and malformed load/store addresses raise an error that carries the offending
source line; an unknown register (and likewise a malformed immediate) raises
an error carrying only the offending token.  A failed parse installs no
partial program: the engine load path leaves the previous state untouched. -/
theorem parse_error_amended :
    (∀ (labels : List (String × Nat)) (iid : Nat) (line t0 : String)
       (rest : List String),
      tokenize line = t0 :: rest →
      pyLower t0 ∉ (["nop", "add", "sub", "lw", "sw", "beq"] : List String) →
      parse_line labels iid line
        = .error ("Unsupported op " ++ sq ++ pyLower t0 ++ sq ++ " in: " ++ line) ∧
      strContains ("Unsupported op " ++ sq ++ pyLower t0 ++ sq ++ " in: " ++ line)
        line = true) ∧
    (∀ (labels : List (String × Nat)) (iid : Nat) (line t0 : String)
       (rest : List String),
      tokenize line = t0 :: rest →
      pyLower t0 = "add" ∨ pyLower t0 = "sub" →
      (tokenize line).length ≠ 4 →
      parse_line labels iid line
        = .error ("Bad " ++ pyLower t0 ++ " format: " ++ line) ∧
      strContains ("Bad " ++ pyLower t0 ++ " format: " ++ line) line = true) ∧
    (∀ tok : String,
      dictFind REG_NAMES (pyLower (pyStrip tok)) = none →
      parse_reg tok
        = .error ("Unknown register " ++ sq ++ pyLower (pyStrip tok) ++ sq)) ∧
    (∀ (labels : List (String × Nat)) (iid : Nat)
       (line t0 r1 r2 lbl : String) (a b : Nat) (e : String),
      tokenize line = [t0, r1, r2, lbl] →
      pyLower t0 = "beq" →
      parse_reg r1 = .ok a → parse_reg r2 = .ok b →
      dictFind labels lbl = none →
      parse_int lbl = .error e →
      parse_line labels iid line
        = .error ("Unknown label " ++ sq ++ lbl ++ sq ++ " in: " ++ line) ∧
      strContains ("Unknown label " ++ sq ++ lbl ++ sq ++ " in: " ++ line)
        line = true) ∧
    (∀ (labels : List (String × Nat)) (iid : Nat)
       (line t0 rd addr : String) (a : Nat),
      tokenize line = [t0, rd, addr] →
      pyLower t0 = "lw" →
      parse_reg rd = .ok a →
      (!addr.data.contains '(' || !pyEndsWith addr ")") = true →
      parse_line labels iid line = .error ("Bad lw address: " ++ line) ∧
      strContains ("Bad lw address: " ++ line) line = true) ∧
    (∀ (cpu : PipelineCPU) (text e : String),
      parse_program text = .error e → load_program_text cpu text = cpu) := by
  refine ⟨?_, ?_, ?_, ?_, ?_, ?_⟩
  · intro labels iid line t0 rest heq hnot
    exact ⟨parse_err_opcode labels iid line t0 rest heq hnot,
      strContains_suffix ("Unsupported op " ++ sq ++ pyLower t0 ++ sq ++ " in: ")
        line⟩
  · intro labels iid line t0 rest heq hadd harity
    exact ⟨parse_err_arity labels iid line t0 rest heq hadd harity,
      strContains_suffix ("Bad " ++ pyLower t0 ++ " format: ") line⟩
  · exact parse_err_reg
  · intro labels iid line t0 r1 r2 lbl a b e heq hbeq hr1 hr2 hfind hpi
    exact ⟨parse_err_label labels iid line t0 r1 r2 lbl a b e heq hbeq hr1 hr2
        hfind hpi,
      strContains_suffix ("Unknown label " ++ sq ++ lbl ++ sq ++ " in: ") line⟩
  · intro labels iid line t0 rd addr a heq hlw hrd hbad
    exact ⟨parse_err_addr labels iid line t0 rd addr a heq hlw hrd hbad,
      strContains_suffix ("Bad lw address: ") line⟩
  · intro cpu text e h
    unfold load_program_text
    rw [h]

/-- C7 witness: each clause of the amended statement applied at a concrete
malformed input, with all hypotheses discharged there. -/
theorem parse_error_witness :
    (parse_line [] 0 "mul x1, x2, x3"
      = .error ("Unsupported op " ++ sq ++ pyLower "mul" ++ sq ++ " in: "
          ++ "mul x1, x2, x3") ∧
     strContains ("Unsupported op " ++ sq ++ pyLower "mul" ++ sq ++ " in: "
          ++ "mul x1, x2, x3") "mul x1, x2, x3" = true) ∧
    (parse_line [] 0 "add x1, x0"
      = .error ("Bad " ++ pyLower "add" ++ " format: " ++ "add x1, x0") ∧
     strContains ("Bad " ++ pyLower "add" ++ " format: " ++ "add x1, x0")
        "add x1, x0" = true) ∧
    (parse_reg "x99"
      = .error ("Unknown register " ++ sq ++ pyLower (pyStrip "x99") ++ sq)) ∧
    (parse_line [] 0 "beq x1, x2, loopy"
      = .error ("Unknown label " ++ sq ++ "loopy" ++ sq ++ " in: "
          ++ "beq x1, x2, loopy") ∧
     strContains ("Unknown label " ++ sq ++ "loopy" ++ sq ++ " in: "
          ++ "beq x1, x2, loopy") "beq x1, x2, loopy" = true) ∧
    (parse_line [] 0 "lw x1, 0x0"
      = .error ("Bad lw address: " ++ "lw x1, 0x0") ∧
     strContains ("Bad lw address: " ++ "lw x1, 0x0") "lw x1, 0x0" = true) ∧
    (load_program_text { stalls := 3 } "add" = { stalls := 3 }) :=
  ⟨parse_error_amended.1 [] 0 "mul x1, x2, x3" "mul" ["x1", "x2", "x3"]
      rfl (by decide),
   parse_error_amended.2.1 [] 0 "add x1, x0" "add" ["x1", "x0"] rfl
      (Or.inl rfl) (by decide),
   parse_error_amended.2.2.1 "x99" rfl,
   parse_error_amended.2.2.2.1 [] 0 "beq x1, x2, loopy" "beq" "x1" "x2"
      "loopy" 1 2
      ("invalid literal for int() with base 10: " ++ sq ++ "loopy" ++ sq)
      rfl rfl rfl rfl rfl rfl,
   parse_error_amended.2.2.2.2.1 [] 0 "lw x1, 0x0" "lw" "x1" "0x0" 1
      rfl rfl rfl rfl,
   parse_error_amended.2.2.2.2.2 { stalls := 3 } "add"
      ("Bad add format: " ++ "add") rfl⟩

end RV
